import Mathlib

/-!
Verification development for the HealthManager blood-work tracking backend.

The development shallowly embeds the parts of the application that the
specification speaks about:

* the FHIR resource mapper `app/services/fhir_mapper.py` (class `FHIRMapper`),
  which converts between the relational models of `app/models.py` and
  FHIR-shaped JSON objects;
* the duplicated mapper of `bloodwork-tracker/app/services/fhir_mapper.py`;
* the per-resource CRUD route handlers of `app/routes/patients.py`,
  `app/routes/reports.py`, `app/routes/observations.py`,
  `app/routes/documents.py` and `app/routes/fhir.py`, as a transition system
  over an explicit database state.

Modelling conventions:

* Python `dict`/`list`/scalar values are modelled by the inductive type
  `JSON`; Python `None` is `JSON.null`.
* Fallible Python code (code that can raise) is modelled in the `Option`
  monad: `none` models an exception escaping the modelled code.  Operations
  applied to values of an unexpected shape (e.g. `.get` on a non-dict) are
  modelled as failures, and the model records, where these occur in typed
  record fields, the string/number typing the relational schema prescribes.
* Python `uuid.uuid4()` produces a fresh random identifier; it is modelled
  by an explicit `uuid : String` argument supplied by the environment.
* Python `datetime` objects are modelled by `PyDateTime`;
  `datetime.isoformat`/`datetime.fromisoformat` are modelled on ISO-8601
  strings of the shapes the mapper itself produces
  (`YYYY-MM-DD` and `YYYY-MM-DDTHH:MM:SS`).
* Python floats are modelled as rationals; the mapper only moves values
  around, it never computes with them.
-/

set_option maxHeartbeats 1600000

/-- JSON-like values: the Python dicts, lists and scalars handled by the
mapper.  `null` models Python `None`; `obj` keeps the insertion order of the
dict items, as Python does. -/
inductive JSON where
  | null : JSON
  | bool (b : Bool) : JSON
  | num (q : ℚ) : JSON
  | str (s : String) : JSON
  | arr (xs : List JSON) : JSON
  | obj (kvs : List (String × JSON)) : JSON
deriving Repr, Inhabited

namespace JSON

mutual
/-- Structural equality test for `JSON` (`==` on fully evaluated values). -/
def beq : JSON → JSON → Bool
  | .null, .null => true
  | .bool a, .bool b => a == b
  | .num a, .num b => a == b
  | .str a, .str b => a == b
  | .arr xs, .arr ys => beqList xs ys
  | .obj xs, .obj ys => beqKV xs ys
  | _, _ => false
def beqList : List JSON → List JSON → Bool
  | [], [] => true
  | x :: xs, y :: ys => beq x y && beqList xs ys
  | _, _ => false
def beqKV : List (String × JSON) → List (String × JSON) → Bool
  | [], [] => true
  | (k₁, v₁) :: xs, (k₂, v₂) :: ys => k₁ == k₂ && beq v₁ v₂ && beqKV xs ys
  | _, _ => false
end

mutual
theorem beq_iff : ∀ a b, beq a b = true ↔ a = b
  | .null, b => by cases b <;> simp [beq]
  | .bool a, b => by cases b <;> simp [beq]
  | .num a, b => by cases b <;> simp [beq]
  | .str a, b => by cases b <;> simp [beq]
  | .arr xs, b => by
      cases b <;> simp [beq]
      exact beqList_iff xs _
  | .obj xs, b => by
      cases b <;> simp [beq]
      exact beqKV_iff xs _
theorem beqList_iff : ∀ xs ys, beqList xs ys = true ↔ xs = ys
  | [], ys => by cases ys <;> simp [beqList]
  | x :: xs, ys => by
      cases ys <;> simp [beqList]
      rw [beq_iff, beqList_iff]
theorem beqKV_iff : ∀ xs ys, beqKV xs ys = true ↔ xs = ys
  | [], ys => by cases ys <;> simp [beqKV]
  | (k, v) :: xs, ys => by
      cases ys with
      | nil => simp [beqKV]
      | cons y ys =>
        obtain ⟨k₂, v₂⟩ := y
        simp [beqKV]
        rw [beq_iff, beqKV_iff]
end

instance : DecidableEq JSON := fun a b => decidable_of_iff _ (beq_iff a b)

/-- Python truthiness of a value (`if value:`). -/
def truthy : JSON → Bool
  | .null => false
  | .bool b => b
  | .num q => q ≠ 0
  | .str s => s ≠ ""
  | .arr xs => ¬ xs.isEmpty
  | .obj kvs => ¬ kvs.isEmpty

/-- Key lookup in a JSON object (first binding, as dict keys are unique). -/
def lookup (j : JSON) (k : String) : Option JSON :=
  match j with
  | .obj kvs => kvs.lookup k
  | _ => none

/-- Python `d.get(k, dflt)`: fails (AttributeError) unless `d` is a dict. -/
def dictGetD (j : JSON) (k : String) (dflt : JSON) : Option JSON :=
  match j with
  | .obj kvs => some ((kvs.lookup k).getD dflt)
  | _ => none

/-- Python `d[k]` on a dict: KeyError (failure) when the key is missing,
failure on non-dicts. -/
def getItem (j : JSON) (k : String) : Option JSON :=
  match j with
  | .obj kvs => kvs.lookup k
  | _ => none

/-- Python `x[0]`: first element of a list (IndexError on `[]`), first
character of a string, failure otherwise. -/
def index0 : JSON → Option JSON
  | .arr (x :: _) => some x
  | .str s => if s = "" then none else some (.str (String.mk [s.data.headD ' ']))
  | _ => none

/-- Coerce to a string, failing (TypeError/AttributeError) otherwise. -/
def asStr : JSON → Option String
  | .str s => some s
  | _ => none

/-- Coerce to an optional string: Python `None` stays `None`. -/
def asOptStr : JSON → Option (Option String)
  | .null => some none
  | .str s => some (some s)
  | _ => none

/-- Coerce to an optional number: Python `None` stays `None`. -/
def asOptNum : JSON → Option (Option ℚ)
  | .null => some none
  | .num q => some (some q)
  | _ => none

/-- The top-level dict comprehension
`\x7bk: v for k, v in d.items() if v is not None\x7d` used by
`patient_to_fhir` and `report_to_fhir`. -/
def removeNoneTop (kvs : List (String × JSON)) : List (String × JSON) :=
  kvs.filter (fun kv => kv.2 ≠ .null)

mutual
/-- Model of `FHIRMapper._remove_none_values`: recursively drop dict entries
whose value is `None` and `None` elements of lists. -/
def remNone : JSON → JSON
  | .null => .null
  | .bool b => .bool b
  | .num q => .num q
  | .str s => .str s
  | .arr xs => .arr (remNoneList xs)
  | .obj kvs => .obj (remNoneKV kvs)
def remNoneList : List JSON → List JSON
  | [] => []
  | x :: xs => if x = .null then remNoneList xs else remNone x :: remNoneList xs
def remNoneKV : List (String × JSON) → List (String × JSON)
  | [] => []
  | (k, v) :: kvs => if v = .null then remNoneKV kvs else (k, remNone v) :: remNoneKV kvs
end

mutual
/-- No dict entry maps to `null` and no list contains `null`, at any depth. -/
def noNulls : JSON → Bool
  | .null => true
  | .bool _ => true
  | .num _ => true
  | .str _ => true
  | .arr xs => noNullsList xs
  | .obj kvs => noNullsKV kvs
def noNullsList : List JSON → Bool
  | [] => true
  | x :: xs => !(x = .null : Bool) && noNulls x && noNullsList xs
def noNullsKV : List (String × JSON) → Bool
  | [] => true
  | (_, v) :: kvs => !(v = .null : Bool) && noNulls v && noNullsKV kvs
end

theorem remNone_ne_null : ∀ j, j ≠ .null → remNone j ≠ .null := by
  intro j h
  cases j <;> simp_all [remNone]

mutual
theorem noNulls_remNone : ∀ j, noNulls (remNone j) = true
  | .null => by simp [remNone, noNulls]
  | .bool b => by simp [remNone, noNulls]
  | .num q => by simp [remNone, noNulls]
  | .str s => by simp [remNone, noNulls]
  | .arr xs => by
      simp only [remNone, noNulls]
      exact noNullsList_remNone xs
  | .obj kvs => by
      simp only [remNone, noNulls]
      exact noNullsKV_remNone kvs
theorem noNullsList_remNone : ∀ xs, noNullsList (remNoneList xs) = true
  | [] => by simp [remNoneList, noNullsList]
  | x :: xs => by
      by_cases h : x = JSON.null
      · simp [remNoneList, h, noNullsList_remNone xs]
      · simp [remNoneList, h, noNullsList, noNullsList_remNone xs,
          noNulls_remNone x, remNone_ne_null x h]
theorem noNullsKV_remNone : ∀ kvs, noNullsKV (remNoneKV kvs) = true
  | [] => by simp [remNoneKV, noNullsKV]
  | (k, v) :: kvs => by
      by_cases h : v = JSON.null
      · simp [remNoneKV, h, noNullsKV_remNone kvs]
      · simp [remNoneKV, h, noNullsKV, noNullsKV_remNone kvs,
          noNulls_remNone v, remNone_ne_null v h]
end

theorem remNoneKV_append : ∀ xs ys, remNoneKV (xs ++ ys) = remNoneKV xs ++ remNoneKV ys
  | [], ys => rfl
  | (k, v) :: xs, ys => by
      by_cases h : v = JSON.null <;>
        simp [remNoneKV, h, remNoneKV_append xs ys]

end JSON

/-- Python `datetime.datetime` values (second precision; the application
never produces sub-second ISO strings from its own data model). -/
structure PyDateTime where
  year : Nat
  month : Nat
  day : Nat
  hour : Nat
  minute : Nat
  second : Nat
deriving DecidableEq, Repr

/-- Digit character for `n % 10`. -/
def dchar (n : Nat) : Char := Char.ofNat (48 + n % 10)

/-- Numeric value of a digit character. -/
def dval (c : Char) : Nat := c.toNat - 48

def isDigitCh (c : Char) : Bool := 48 ≤ c.toNat && c.toNat ≤ 57

theorem dchar_toNat (n : Nat) : (dchar n).toNat = 48 + n % 10 := by
  unfold dchar Char.ofNat
  rw [dif_pos (Or.inl (by omega : 48 + n % 10 < 55296))]
  rfl

theorem dval_dchar (n : Nat) : dval (dchar n) = n % 10 := by
  simp [dval, dchar_toNat]

theorem isDigitCh_dchar (n : Nat) : isDigitCh (dchar n) = true := by
  simp [isDigitCh, dchar_toNat]
  omega

def isLeapYear (y : Nat) : Bool := (y % 4 = 0 && y % 100 ≠ 0) || y % 400 = 0

def daysInMonth (y m : Nat) : Nat :=
  if m = 2 then (if isLeapYear y then 29 else 28)
  else if m = 4 || m = 6 || m = 9 || m = 11 then 30
  else 31

theorem daysInMonth_le (y m : Nat) : daysInMonth y m ≤ 31 := by
  unfold daysInMonth
  split
  · split <;> omega
  · split <;> omega

/-- A calendar-valid datetime, as `datetime.fromisoformat` validates it. -/
def PyDateTime.validb (d : PyDateTime) : Bool :=
  1 ≤ d.year && d.year ≤ 9999 && 1 ≤ d.month && d.month ≤ 12 &&
  1 ≤ d.day && d.day ≤ daysInMonth d.year d.month &&
  d.hour ≤ 23 && d.minute ≤ 59 && d.second ≤ 59

def pad2 (n : Nat) : List Char := [dchar (n / 10), dchar n]

def pad4 (n : Nat) : List Char := [dchar (n / 1000), dchar (n / 100), dchar (n / 10), dchar n]

def PyDateTime.isoChars (d : PyDateTime) : List Char :=
  pad4 d.year ++ '-' :: pad2 d.month ++ '-' :: pad2 d.day ++
  'T' :: pad2 d.hour ++ ':' :: pad2 d.minute ++ ':' :: pad2 d.second

/-- Model of `datetime.isoformat()` (no microseconds, no timezone). -/
def PyDateTime.isoformat (d : PyDateTime) : String := ⟨d.isoChars⟩

def d2 (a b : Char) : Nat := dval a * 10 + dval b

def d4 (a b c d : Char) : Nat := dval a * 1000 + dval b * 100 + dval c * 10 + dval d

def checkedDT (d : PyDateTime) : Option PyDateTime := if d.validb then some d else none

def parseDTChars : List Char → Option PyDateTime
  | [y1, y2, y3, y4, '-', m1, m2, '-', a1, a2] =>
      if [y1, y2, y3, y4, m1, m2, a1, a2].all isDigitCh then
        checkedDT ⟨d4 y1 y2 y3 y4, d2 m1 m2, d2 a1 a2, 0, 0, 0⟩
      else none
  | [y1, y2, y3, y4, '-', m1, m2, '-', a1, a2, 'T', h1, h2, ':', n1, n2, ':', s1, s2] =>
      if [y1, y2, y3, y4, m1, m2, a1, a2, h1, h2, n1, n2, s1, s2].all isDigitCh then
        checkedDT ⟨d4 y1 y2 y3 y4, d2 m1 m2, d2 a1 a2, d2 h1 h2, d2 n1 n2, d2 s1 s2⟩
      else none
  | _ => none

/-- Model of `datetime.fromisoformat`: parses the date and datetime shapes
`YYYY-MM-DD` / `YYYY-MM-DDTHH:MM:SS` and raises (fails) on anything else. -/
def fromisoformat (s : String) : Option PyDateTime := parseDTChars s.data

theorem d2_pad2 (n : Nat) (h : n ≤ 99) : d2 (dchar (n / 10)) (dchar n) = n := by
  simp [d2, dval_dchar]
  omega

theorem d4_pad4 (n : Nat) (h : n ≤ 9999) :
    d4 (dchar (n / 1000)) (dchar (n / 100)) (dchar (n / 10)) (dchar n) = n := by
  simp [d4, dval_dchar]
  omega

/-- Printing a valid datetime with `isoformat` and parsing it back with
`fromisoformat` is the identity. -/
theorem fromisoformat_isoformat (d : PyDateTime) (h : d.validb = true) :
    fromisoformat d.isoformat = some d := by
  obtain ⟨y, mo, dy, hh, mi, ss⟩ := d
  have hd : daysInMonth y mo ≤ 31 := daysInMonth_le y mo
  have hv := h
  simp [PyDateTime.validb] at hv
  simp [fromisoformat, PyDateTime.isoformat, PyDateTime.isoChars, pad4, pad2,
    parseDTChars, isDigitCh_dchar]
  rw [d4_pad4 _ (by omega), d2_pad2 _ (by omega), d2_pad2 _ (by omega),
    d2_pad2 _ (by omega), d2_pad2 _ (by omega), d2_pad2 _ (by omega)]
  simp [checkedDT, h]

/-- Python truthiness of an optional string attribute. -/
def optTruthy : Option String → Bool
  | some s => s ≠ ""
  | none => false

/-- Python `str(x)` for the integer-or-None primary key attribute. -/
def pyStrOfId : Option Nat → String
  | some n => toString n
  | none => "None"

def titleAux : Bool → List Char → List Char
  | _, [] => []
  | prevAlpha, c :: cs =>
      (if prevAlpha then c.toLower else c.toUpper) :: titleAux c.isAlpha cs

/-- Model of Python `str.lower()` (ASCII letters). -/
def pyLower (s : String) : String := ⟨s.data.map Char.toLower⟩

/-- Model of Python `str.upper()` (ASCII letters). -/
def pyUpper (s : String) : String := ⟨s.data.map Char.toUpper⟩

/-- Model of Python `str.title()` (ASCII letters). -/
def pyTitle (s : String) : String := ⟨titleAux false s.data⟩

/-- The `Patient` model of `app/models.py` as built by `Patient.__init__`
(`id` is `None` until the row is committed; `__init__` always assigns a
fresh UUID4 string to `fhir_id`). -/
structure Patient where
  id : Option Nat := none
  name : String
  birth_date : Option PyDateTime := none
  gender : Option String := none
  notes : Option String := none
  fhir_id : String
deriving DecidableEq, Repr

/-- The `LOINCCode` model (the fields the mapper reads). -/
structure LOINCCode where
  code : String
  display : String
  system : String
deriving DecidableEq, Repr

/-- The `UCUMUnit` model (the fields the mapper reads). -/
structure UCUMUnit where
  code : String
  display : String
  system : String
deriving DecidableEq, Repr

/-- The `Biomarker` model (the fields the mapper reads; `loinc` and `unit`
are the optional relationships). -/
structure Biomarker where
  id : Nat
  name : String
  loinc : Option LOINCCode := none
  unit : Option UCUMUnit := none
deriving DecidableEq, Repr

/-- The `TestReport` model as built by `TestReport.__init__` (the `issued`
column is filled by the database default at insert time, so it is not a
field of the constructed object and is passed separately to the mapper). -/
structure TestReport where
  id : Option Nat := none
  patient_id : Nat
  status : String := "final"
  category : String := "laboratory"
  effective_datetime : PyDateTime
  conclusion : Option String := none
  conclusion_code : Option String := none
  fhir_id : String
deriving DecidableEq, Repr

/-- The `Observation` model as built by `Observation.__init__`. -/
structure Observation where
  id : Option Nat := none
  patient_id : Nat
  report_id : Nat
  biomarker_id : Nat
  status : String := "final"
  category : String := "laboratory"
  effective_datetime : PyDateTime
  value : Option ℚ := none
  unit : Option String := none
  ref_min : Option ℚ := none
  ref_max : Option ℚ := none
  interpretation : Option String := none
  notes : Option String := none
  performer : Option String := none
  specimen : Option String := none
  method : Option String := none
  fhir_id : String
deriving DecidableEq, Repr

namespace FHIRMapper

open JSON

/-- Model of `FHIRMapper._get_interpretation_display`. -/
def get_interpretation_display (c : String) : String :=
  if c = "H" then "High"
  else if c = "L" then "Low"
  else if c = "N" then "Normal"
  else if c = "A" then "Abnormal"
  else if c = "AA" then "Critical abnormal"
  else c

/-- Model of `FHIRMapper.patient_to_fhir`.  The source reads the `id`
attribute of the (possibly not yet committed) row. -/
def patient_to_fhir (patient : Patient) : JSON :=
  .obj (removeNoneTop [
    ("resourceType", .str "Patient"),
    ("id", .str patient.fhir_id),
    ("identifier", .arr [.obj [
      ("use", .str "usual"),
      ("type", .obj [("coding", .arr [.obj [
        ("system", .str "http://terminology.hl7.org/CodeSystem/v2-0203"),
        ("code", .str "MR"),
        ("display", .str "Medical Record Number")]])]),
      ("value", .str (pyStrOfId patient.id))]]),
    ("name", .arr [.obj [("use", .str "official"), ("text", .str patient.name)]]),
    ("gender", match patient.gender with
      | some g => if g ≠ "" then .str (pyLower g) else .null
      | none => .null),
    ("birthDate", match patient.birth_date with
      | some d => .str d.isoformat
      | none => .null),
    ("note", match patient.notes with
      | some n => if n ≠ "" then .arr [.obj [("text", .str n)]] else .arr []
      | none => .arr [])])

/-- The optional-string chain `fo.get(key, [\x7b\x7d])[0].get(sub) if fo.get(key) else None`
used for `note` (sub = `"text"`) and `performer` (sub = `"display"`). -/
def listEntryStr (fo : JSON) (key sub : String) : Option (Option String) := do
  let v ← dictGetD fo key .null
  if v.truthy then do
    let e0 ← index0 v
    asOptStr (← dictGetD e0 sub .null)
  else pure none

/-- The optional-string chain `fo.get(key, \x7b\x7d).get(sub) if fo.get(key) else None`
used for `specimen` (sub = `"display"`) and `method` (sub = `"text"`). -/
def dictEntryStr (fo : JSON) (key sub : String) : Option (Option String) := do
  let v ← dictGetD fo key .null
  if v.truthy then asOptStr (← dictGetD v sub .null)
  else pure none

/-- The `"id"`-override applied by all three inbound converters:
`__init__` draws a fresh UUID4 (`uuid`), then the converter overwrites it
with `resource["id"]` when the key is present. -/
def fhirIdOf (resource : JSON) (uuid : String) : Option String :=
  match lookup resource "id" with
  | some v => asStr v
  | none => pure uuid

/-- ASCII whitespace as `str.strip()` treats it. -/
def isSpaceCh (c : Char) : Bool :=
  c = ' ' || c = '\t' || c = '\n' || c = '\r' || c = '\x0b' || c = '\x0c'

/-- Model of Python `str.strip()`: drop leading and trailing whitespace. -/
def pyStrip (s : String) : String :=
  ⟨((s.data.dropWhile isSpaceCh).reverse.dropWhile isSpaceCh).reverse⟩

/-- The `birth_date` extraction of `fhir_to_patient`:
`datetime.fromisoformat(fhir_patient["birthDate"]) if fhir_patient.get("birthDate") else None`. -/
def birthDateOf (fp : JSON) : Option (Option PyDateTime) := do
  let bdVal ← dictGetD fp "birthDate" .null
  if bdVal.truthy then do
    let d ← fromisoformat (← asStr bdVal)
    pure (some d)
  else pure none

/-- The local variable `name` of `fhir_to_patient` before the
`"Unknown Patient"` default is applied:
`name_entry.get("text") or name_entry.get("family", "") + " " + name_entry.get("given", [""])[0]`
followed by `.strip()`. -/
def nameCandidate (fhir_patient : JSON) : Option String := do
  let nameVal ← dictGetD fhir_patient "name" .null
  let name_entry ← if nameVal.truthy then index0 nameVal else pure (.obj [])
  let t ← dictGetD name_entry "text" .null
  let nameJ ← if t.truthy then pure t else do
    let family ← dictGetD name_entry "family" (.str "")
    let given ← dictGetD name_entry "given" (.arr [.str ""])
    let g0 ← index0 given
    let famS ← asStr family
    let g0S ← asStr g0
    pure (JSON.str (famS ++ " " ++ g0S))
  let nameS ← asStr nameJ
  pure (pyStrip nameS)

/-- Model of `FHIRMapper.fhir_to_patient`.  `uuid` is the fresh UUID4 the
`Patient.__init__` call draws; it is kept only when the resource has no
`"id"` key. -/
def fhir_to_patient (fhir_patient : JSON) (uuid : String) : Option Patient := do
  let stripped ← nameCandidate fhir_patient
  let name := if stripped ≠ "" then stripped else "Unknown Patient"
  let gender ← asOptStr (← dictGetD fhir_patient "gender" .null)
  let birth_date ← birthDateOf fhir_patient
  let notes ← listEntryStr fhir_patient "note" "text"
  let fhir_id ← fhirIdOf fhir_patient uuid
  pure { name := name, birth_date := birth_date, gender := gender,
         notes := notes, fhir_id := fhir_id }

/-- The string `observation.unit or (unit_info.display if unit_info else "")`. -/
def unitDisplay (ounit : Option String) (unit_info : Option UCUMUnit) : String :=
  match ounit with
  | some u => if u ≠ "" then u else (match unit_info with
      | some ui => ui.display
      | none => "")
  | none => (match unit_info with
      | some ui => ui.display
      | none => "")

/-- The string `observation.unit or (unit_info.code if unit_info else "")`. -/
def unitCode (ounit : Option String) (unit_info : Option UCUMUnit) : String :=
  match ounit with
  | some u => if u ≠ "" then u else (match unit_info with
      | some ui => ui.code
      | none => "")
  | none => (match unit_info with
      | some ui => ui.code
      | none => "")

def unitSystem (unit_info : Option UCUMUnit) : String :=
  match unit_info with
  | some ui => ui.system
  | none => "http://unitsofmeasure.org"

/-- Model of `FHIRMapper.observation_to_fhir`.  The source reads the ORM
relationships `observation.biomarker` and `observation.patient.fhir_id`,
supplied here as arguments. -/
def observation_to_fhir (observation : Observation) (biomarker : Biomarker)
    (patientFhirId : String) : JSON :=
  let loinc_code := biomarker.loinc
  let unit_info := biomarker.unit
  remNone (.obj [
    ("resourceType", .str "Observation"),
    ("id", .str observation.fhir_id),
    ("status", .str observation.status),
    ("category", .arr [.obj [("coding", .arr [.obj [
      ("system", .str "http://terminology.hl7.org/CodeSystem/observation-category"),
      ("code", .str observation.category),
      ("display", .str (pyTitle observation.category))]])]]),
    ("code", .obj [
      ("coding", .arr [.obj [
        ("system", .str (match loinc_code with
          | some l => l.system
          | none => "http://local/biomarkers")),
        ("code", .str (match loinc_code with
          | some l => l.code
          | none => "local:" ++ toString biomarker.id)),
        ("display", .str (match loinc_code with
          | some l => l.display
          | none => biomarker.name))]]),
      ("text", .str biomarker.name)]),
    ("subject", .obj [("reference", .str ("Patient/" ++ patientFhirId))]),
    ("effectiveDateTime", .str observation.effective_datetime.isoformat),
    ("valueQuantity", match observation.value with
      | some v => .obj [
          ("value", .num v),
          ("unit", .str (unitDisplay observation.unit unit_info)),
          ("system", .str (unitSystem unit_info)),
          ("code", .str (unitCode observation.unit unit_info))]
      | none => .null),
    ("interpretation", match observation.interpretation with
      | some i => if i ≠ "" then .arr [.obj [("coding", .arr [.obj [
          ("system", .str "http://terminology.hl7.org/CodeSystem/v3-ObservationInterpretation"),
          ("code", .str i),
          ("display", .str (get_interpretation_display i))]])]] else .arr []
      | none => .arr []),
    ("referenceRange", if observation.ref_min.isSome || observation.ref_max.isSome then
        .arr [.obj [
          ("low", match observation.ref_min with
            | some r => .obj [
                ("value", .num r),
                ("unit", .str (unitDisplay observation.unit unit_info)),
                ("system", .str (unitSystem unit_info)),
                ("code", .str (unitCode observation.unit unit_info))]
            | none => .null),
          ("high", match observation.ref_max with
            | some r => .obj [
                ("value", .num r),
                ("unit", .str (unitDisplay observation.unit unit_info)),
                ("system", .str (unitSystem unit_info)),
                ("code", .str (unitCode observation.unit unit_info))]
            | none => .null)]]
      else .arr []),
    ("performer", match observation.performer with
      | some p => if p ≠ "" then .arr [.obj [("display", .str p)]] else .arr []
      | none => .arr []),
    ("specimen", match observation.specimen with
      | some sp => if sp ≠ "" then .obj [("display", .str sp)] else .null
      | none => .null),
    ("method", match observation.method with
      | some me => if me ≠ "" then .obj [("text", .str me)] else .null
      | none => .null),
    ("note", match observation.notes with
      | some n => if n ≠ "" then .arr [.obj [("text", .str n)]] else .arr []
      | none => .arr [])])

/-- The locals `value`, `unit` of `fhir_to_observation`:
`value_quantity = fhir_observation.get("valueQuantity", \x7b\x7d)` followed by
`value_quantity.get("value")` / `value_quantity.get("unit")`. -/
def valueUnitOfFhir (fo : JSON) : Option (Option ℚ × Option String) := do
  let value_quantity ← dictGetD fo "valueQuantity" (.obj [])
  let value ← asOptNum (← dictGetD value_quantity "value" .null)
  let unit ← asOptStr (← dictGetD value_quantity "unit" .null)
  pure (value, unit)

/-- The locals `ref_min`, `ref_max` of `fhir_to_observation`. -/
def refRangeOfFhir (fo : JSON) : Option (Option ℚ × Option ℚ) := do
  let ref_ranges ← dictGetD fo "referenceRange" (.arr [])
  if ref_ranges.truthy then do
    let ref_range ← index0 ref_ranges
    match ref_range with
    | .obj kvs => do
        let ref_min ← match kvs.lookup "low" with
          | some lowv => asOptNum (← dictGetD lowv "value" .null)
          | none => pure (none : Option ℚ)
        let ref_max ← match kvs.lookup "high" with
          | some highv => asOptNum (← dictGetD highv "value" .null)
          | none => pure (none : Option ℚ)
        pure (ref_min, ref_max)
    | _ => none
  else pure (none, none)

/-- The local `interpretation` of `fhir_to_observation`:
`interpretations[0].get("coding", [\x7b\x7d])[0].get("code")` when the
`interpretation` entry is truthy. -/
def interpretationOfFhir (fo : JSON) : Option (Option String) := do
  let interpretations ← dictGetD fo "interpretation" (.arr [])
  if interpretations.truthy then do
    let i0 ← index0 interpretations
    let codings ← dictGetD i0 "coding" (.arr [.obj []])
    let c0 ← index0 codings
    asOptStr (← dictGetD c0 "code" .null)
  else pure none

/-- The `for coding in codings` scan of `fhir_to_observation` looking for a
`http://loinc.org` coding; the found value is bound but then unused by the
source (the biomarker is the placeholder id 1).  The scan stops at the first
match, exactly as the `break` does. -/
def scanLoinc : List JSON → Option (Option JSON)
  | [] => some none
  | c :: rest =>
      match c with
      | .obj kvs =>
          if (kvs.lookup "system").getD .null = .str "http://loinc.org" then
            some (some ((kvs.lookup "code").getD .null))
          else scanLoinc rest
      | _ => none

def loincOfFhir (fo : JSON) : Option (Option JSON) := do
  let code_info ← dictGetD fo "code" (.obj [])
  let codings ← dictGetD code_info "coding" (.arr [])
  match codings with
  | .arr xs => scanLoinc xs
  | _ => none

/-- Model of `FHIRMapper._extract_category`. -/
def extract_category (fo : JSON) : Option String := do
  let categories ← dictGetD fo "category" (.arr [])
  if categories.truthy then do
    let c0 ← index0 categories
    let codings ← dictGetD c0 "coding" (.arr [])
    if codings.truthy then do
      let cd0 ← index0 codings
      asStr (← dictGetD cd0 "code" (.str "laboratory"))
    else pure "laboratory"
  else pure "laboratory"

/-- Model of `FHIRMapper._extract_diagnostic_category` (same shape as
`_extract_category`, duplicated in the source). -/
def extract_diagnostic_category (fr : JSON) : Option String := do
  let categories ← dictGetD fr "category" (.arr [])
  if categories.truthy then do
    let c0 ← index0 categories
    let codings ← dictGetD c0 "coding" (.arr [])
    if codings.truthy then do
      let cd0 ← index0 codings
      asStr (← dictGetD cd0 "code" (.str "laboratory"))
    else pure "laboratory"
  else pure "laboratory"

/-- The first half of the locals of `fhir_to_observation`: value/unit,
reference range, interpretation, the (discarded) LOINC scan and the parsed
`effectiveDateTime`. -/
def obsCore1 (fo : JSON) :
    Option ((Option ℚ × Option String) × (Option ℚ × Option ℚ) ×
      Option String × PyDateTime) := do
  let vu ← valueUnitOfFhir fo
  let rr ← refRangeOfFhir fo
  let interpretation ← interpretationOfFhir fo
  let _loinc ← loincOfFhir fo
  let edt ← getItem fo "effectiveDateTime"
  let effective_datetime ← fromisoformat (← asStr edt)
  pure (vu, rr, interpretation, effective_datetime)

/-- The second half of the locals of `fhir_to_observation`: status,
category, the optional free-text fields and the external id. -/
def obsCore2 (fo : JSON) (uuid : String) :
    Option (String × String × Option String × Option String ×
      Option String × Option String × String) := do
  let status ← asStr (← dictGetD fo "status" (.str "unknown"))
  let category ← extract_category fo
  let notes ← listEntryStr fo "note" "text"
  let performer ← listEntryStr fo "performer" "display"
  let specimen ← dictEntryStr fo "specimen" "display"
  let method ← dictEntryStr fo "method" "text"
  let fhir_id ← fhirIdOf fo uuid
  pure (status, category, notes, performer, specimen, method, fhir_id)

/-- Model of `FHIRMapper.fhir_to_observation`.  `patient_id` and `report_id`
are the auxiliary arguments of the source; the biomarker is the hard-coded
placeholder id 1.  The locals are computed by `obsCore1`/`obsCore2` (split
only to keep the compiled code small). -/
def fhir_to_observation (fo : JSON) (patient_id report_id : Nat)
    (uuid : String) : Option Observation := do
  let (vu, rr, interpretation, effective_datetime) ← obsCore1 fo
  let (status, category, notes, performer, specimen, method, fhir_id) ← obsCore2 fo uuid
  pure { patient_id := patient_id, report_id := report_id, biomarker_id := 1,
         status := status, category := category,
         effective_datetime := effective_datetime,
         value := vu.1, unit := vu.2, ref_min := rr.1, ref_max := rr.2,
         interpretation := interpretation, notes := notes,
         performer := performer, specimen := specimen, method := method,
         fhir_id := fhir_id }

/-- Model of `FHIRMapper.report_to_fhir`.  The source reads the committed
`issued` column and the ORM relationship `report.patient.fhir_id`, supplied
as arguments. -/
def report_to_fhir (report : TestReport) (issued : PyDateTime)
    (patientFhirId : String) : JSON :=
  .obj (removeNoneTop [
    ("resourceType", .str "DiagnosticReport"),
    ("id", .str report.fhir_id),
    ("status", .str report.status),
    ("category", .arr [.obj [("coding", .arr [.obj [
      ("system", .str "http://terminology.hl7.org/CodeSystem/v2-0074"),
      ("code", .str report.category),
      ("display", .str (pyTitle report.category))]])]]),
    ("code", .obj [
      ("coding", .arr [.obj [
        ("system", .str "http://loinc.org"),
        ("code", .str "24323-8"),
        ("display", .str "Laboratory studies (set)")]]),
      ("text", .str "Laboratory Results")]),
    ("subject", .obj [("reference", .str ("Patient/" ++ patientFhirId))]),
    ("effectiveDateTime", .str report.effective_datetime.isoformat),
    ("issued", .str issued.isoformat),
    ("result", .arr []),
    ("conclusion", match report.conclusion with
      | some c => .str c
      | none => .null),
    ("conclusionCode", match report.conclusion_code with
      | some cc => if cc ≠ "" then .arr [.obj [("coding", .arr [.obj [
          ("system", .str "http://snomed.info/sct"),
          ("code", .str cc),
          ("display", .str cc)]])]] else .arr []
      | none => .arr [])])

/-- The `conclusion_code` chain of `fhir_to_report`. -/
def conclusionCodeOfFhir (fr : JSON) : Option (Option String) := do
  let ccv ← dictGetD fr "conclusionCode" .null
  if ccv.truthy then do
    let c0 ← index0 ccv
    let codings ← dictGetD c0 "coding" (.arr [.obj []])
    let cd0 ← index0 codings
    asOptStr (← dictGetD cd0 "code" .null)
  else pure none

/-- Model of `FHIRMapper.fhir_to_report`. -/
def fhir_to_report (fr : JSON) (patient_id : Nat) (uuid : String) :
    Option TestReport := do
  let edt ← getItem fr "effectiveDateTime"
  let effective_datetime ← fromisoformat (← asStr edt)
  let status ← asStr (← dictGetD fr "status" (.str "unknown"))
  let category ← extract_diagnostic_category fr
  let conclusion ← asOptStr (← dictGetD fr "conclusion" .null)
  let conclusion_code ← conclusionCodeOfFhir fr
  let fhir_id ← fhirIdOf fr uuid
  pure { patient_id := patient_id, status := status, category := category,
         effective_datetime := effective_datetime, conclusion := conclusion,
         conclusion_code := conclusion_code, fhir_id := fhir_id }

/-- Model of `FHIRMapper.create_bundle`.  Each resource is wrapped in an
entry whose `fullUrl` is the f-string
`resource['resourceType']/resource['id']` when `'id' in resource` and `None`
otherwise, and the entries with `None` `fullUrl` are then filtered out.
Reading `resource['resourceType']` raises (fails) when the key is missing;
string interpolation is modelled for string components. -/
def bundleEntry (r : JSON) : Option JSON :=
  match r with
  | .obj kvs =>
      if (kvs.lookup "id").isSome then do
        let rt ← kvs.lookup "resourceType"
        let rts ← asStr rt
        let idv ← kvs.lookup "id"
        let ids ← asStr idv
        pure (.obj [("fullUrl", .str (rts ++ "/" ++ ids)), ("resource", r)])
      else some (.obj [("fullUrl", .null), ("resource", r)])
  | _ => none

def create_bundle (resources : List JSON) (bundle_type : String) :
    Option JSON := do
  let entries ← resources.mapM bundleEntry
  let kept := entries.filter (fun e => JSON.lookup e "fullUrl" ≠ some .null)
  pure (.obj [
    ("resourceType", .str "Bundle"),
    ("type", .str bundle_type),
    ("entry", .arr kept)])

end FHIRMapper

namespace BW

open JSON

/-- Model of the mapping core of `get_patient_fhir` in
`bloodwork-tracker/app/services/fhir_mapper.py` (applied to the patient row
the route found; the not-found branch raises before mapping). -/
def get_patient_fhir (patient : Patient) : JSON :=
  .obj (removeNoneTop [
    ("resourceType", .str "Patient"),
    ("id", .str patient.fhir_id),
    ("identifier", .arr [.obj [
      ("use", .str "usual"),
      ("type", .obj [("coding", .arr [.obj [
        ("system", .str "http://terminology.hl7.org/CodeSystem/v2-0203"),
        ("code", .str "MR"),
        ("display", .str "Medical Record Number")]])]),
      ("value", .str (pyStrOfId patient.id))]]),
    ("active", .bool true),
    ("name", .arr [.obj [("use", .str "official"), ("text", .str patient.name)]]),
    ("gender", match patient.gender with
      | some g => .str g
      | none => .null),
    ("birthDate", match patient.birth_date with
      | some d => .str d.isoformat
      | none => .null),
    ("note", match patient.notes with
      | some n => if n ≠ "" then .arr [.obj [("text", .str n)]] else .arr []
      | none => .arr [])])

/-- Model of the per-report body of `get_reports_fhir` in
`bloodwork-tracker/app/services/fhir_mapper.py`.  `observationFhirIds` is
the list of `obs.fhir_id` over `report.observations`; `issued` may be unset
on the row (`if report.issued else None`). -/
def report_fhir (report : TestReport) (issued : Option PyDateTime)
    (patientFhirId : String) (observationFhirIds : List String) : JSON :=
  .obj (removeNoneTop [
    ("resourceType", .str "DiagnosticReport"),
    ("id", .str report.fhir_id),
    ("status", .str report.status),
    ("category", .arr [.obj [("coding", .arr [.obj [
      ("system", .str "http://terminology.hl7.org/CodeSystem/v2-0074"),
      ("code", .str (pyUpper report.category)),
      ("display", .str "Laboratory")]])]]),
    ("code", .obj [("coding", .arr [.obj [
      ("system", .str "http://loinc.org"),
      ("code", .str "24323-8"),
      ("display", .str "Laboratory studies (set)")]])]),
    ("subject", .obj [("reference", .str ("Patient/" ++ patientFhirId))]),
    ("effectiveDateTime", .str report.effective_datetime.isoformat),
    ("issued", match issued with
      | some d => .str d.isoformat
      | none => .null),
    ("result", if ¬ observationFhirIds.isEmpty then
        .arr (observationFhirIds.map
          (fun i => .obj [("reference", .str ("Observation/" ++ i))]))
      else .arr []),
    ("conclusion", match report.conclusion with
      | some c => .str c
      | none => .null)])

end BW

/-- The `MedicalDocument` model as built by `MedicalDocument.__init__`. -/
structure MedicalDocument where
  patient_id : Nat
  report_id : Option Nat := none
  filename : String
  filepath : String
  file_type : String
  file_size : Nat
  description : Option String := none
  fhir_id : String
deriving DecidableEq, Repr

/-- A committed `patients` row: the model plus its integer primary key. -/
structure PatientRow where
  id : Nat
  m : Patient
deriving DecidableEq, Repr

/-- A committed `test_reports` row.  The `issued` column (database default)
is never read by the modelled route logic and is not tracked. -/
structure ReportRow where
  id : Nat
  m : TestReport
deriving DecidableEq, Repr

/-- A committed `observations` row. -/
structure ObservationRow where
  id : Nat
  m : Observation
deriving DecidableEq, Repr

/-- A committed `medical_documents` row. -/
structure DocumentRow where
  id : Nat
  m : MedicalDocument
deriving DecidableEq, Repr

/-- The database state: the four mutable tables, the seeded biomarker ids
(no route creates biomarkers), and the auto-increment counters. -/
structure DB where
  patients : List PatientRow
  reports : List ReportRow
  observations : List ObservationRow
  documents : List DocumentRow
  biomarkers : List Nat
  next_patient_id : Nat
  next_report_id : Nat
  next_observation_id : Nat
  next_document_id : Nat
deriving DecidableEq, Repr

/-- The empty database right after `db.create_all()`, with an arbitrary
seeded biomarker table. -/
def DB.init (bms : List Nat) : DB :=
  { patients := [], reports := [], observations := [], documents := [],
    biomarkers := bms, next_patient_id := 1, next_report_id := 1,
    next_observation_id := 1, next_document_id := 1 }

def DB.findPatient (db : DB) (pid : Nat) : Option PatientRow :=
  db.patients.find? (fun p => p.id = pid)

def DB.findPatientByFhirId (db : DB) (fid : String) : Option PatientRow :=
  db.patients.find? (fun p => p.m.fhir_id = fid)

def DB.findReport (db : DB) (rid : Nat) : Option ReportRow :=
  db.reports.find? (fun r => r.id = rid)

def DB.findReportByFhirId (db : DB) (fid : String) : Option ReportRow :=
  db.reports.find? (fun r => r.m.fhir_id = fid)

def DB.findObservation (db : DB) (oid : Nat) : Option ObservationRow :=
  db.observations.find? (fun o => o.id = oid)

def DB.findObservationByFhirId (db : DB) (fid : String) : Option ObservationRow :=
  db.observations.find? (fun o => o.m.fhir_id = fid)

def DB.findDocument (db : DB) (did : Nat) : Option DocumentRow :=
  db.documents.find? (fun d => d.id = did)

/-- Outcome of a route call: HTTP status, response body (only error bodies
relevant to the claims are modelled, other bodies are `null`), and the
database state after the request. -/
structure RouteResult where
  status : Nat
  body : JSON
  db : DB

namespace Config

/-- `Config.MAX_PATIENT_PROFILES` from `config.py`. -/
def MAX_PATIENT_PROFILES : Nat := 4

end Config

/-- Validated body of `POST /api/v1/patients` (pydantic `PatientCreate`). -/
structure PatientCreate where
  name : String
  birth_date : Option PyDateTime := none
  gender : Option String := none
  notes : Option String := none

/-- Validated body of `POST /api/v1/reports` (pydantic `TestReportCreate`). -/
structure TestReportCreate where
  patient_id : Nat
  effective_datetime : PyDateTime
  status : String := "final"
  category : String := "laboratory"
  conclusion : Option String := none
  conclusion_code : Option String := none

/-- Validated body of `POST /api/v1/observations` (pydantic
`ObservationCreate`; `value` is required). -/
structure ObservationCreate where
  patient_id : Nat
  report_id : Nat
  biomarker_id : Nat
  effective_datetime : PyDateTime
  value : ℚ
  status : String := "final"
  category : String := "laboratory"
  unit : Option String := none
  ref_min : Option ℚ := none
  ref_max : Option ℚ := none
  interpretation : Option String := none
  notes : Option String := none
  performer : Option String := none
  specimen : Option String := none
  method : Option String := none

/-- Validated form data of `POST /api/v1/documents/upload` (after the
file-type and size checks, which do not touch the database). -/
structure DocumentCreate where
  patient_id : Nat
  report_id : Option Nat := none
  filename : String
  filepath : String
  file_type : String
  file_size : Nat
  description : Option String := none

def optNatTruthy : Option Nat → Bool
  | some n => n ≠ 0
  | none => false

namespace RestAPI

/-- Model of `_delete_patient_related_records` in `app/routes/patients.py`. -/
def delete_patient_related_records (db : DB) (patient_id : Nat) : DB :=
  { db with
    documents := db.documents.filter (fun d => ¬ d.m.patient_id = patient_id),
    observations := db.observations.filter (fun o => ¬ o.m.patient_id = patient_id),
    reports := db.reports.filter (fun r => ¬ r.m.patient_id = patient_id) }

/-- Model of `create_patient` in `app/routes/patients.py` for a body that
passes pydantic validation (an invalid body leaves the state unchanged). -/
def create_patient (db : DB) (data : PatientCreate) (uuid : String) : RouteResult :=
  if db.patients.length ≥ Config.MAX_PATIENT_PROFILES then
    { status := 400,
      body := .obj [("error", .str "Maximum number of patient profiles (4) reached")],
      db := db }
  else
    let patient : Patient :=
      { name := data.name, birth_date := data.birth_date,
        gender := data.gender, notes := data.notes, fhir_id := uuid }
    { status := 201, body := .null,
      db := { db with
              patients := db.patients ++ [⟨db.next_patient_id, patient⟩],
              next_patient_id := db.next_patient_id + 1 } }

/-- Model of `update_patient`/`patch_patient` in `app/routes/patients.py`
(their bodies are identical).  The update is over-approximated: the four
updatable fields are replaced by arbitrary new values (pydantic can only
restrict them further); `id` and `fhir_id` are not updatable. -/
def update_patient (db : DB) (patient_id : Nat) (name : String)
    (birth_date : Option PyDateTime) (gender notes : Option String) : RouteResult :=
  match db.findPatient patient_id with
  | some _ =>
      { status := 200, body := .null,
        db := { db with patients := db.patients.map (fun p =>
                  if p.id = patient_id then
                    ⟨p.id, { p.m with
                             name := name, birth_date := birth_date,
                             gender := gender, notes := notes }⟩
                  else p) } }
  | none => { status := 404, body := .null, db := db }

/-- Model of `delete_patient` in `app/routes/patients.py`. -/
def delete_patient (db : DB) (patient_id : Nat) : RouteResult :=
  match db.findPatient patient_id with
  | some _ =>
      let db1 := delete_patient_related_records db patient_id
      { status := 200,
        body := .obj [("message", .str "Patient deleted successfully")],
        db := { db1 with patients := db1.patients.filter (fun p => ¬ p.id = patient_id) } }
  | none => { status := 404, body := .null, db := db }

/-- Model of `create_report` in `app/routes/reports.py`. -/
def create_report (db : DB) (data : TestReportCreate) (uuid : String) : RouteResult :=
  match db.findPatient data.patient_id with
  | none => { status := 404, body := .obj [("error", .str "Patient not found")], db := db }
  | some _ =>
      let report : TestReport :=
        { patient_id := data.patient_id,
          effective_datetime := data.effective_datetime,
          status := data.status, category := data.category,
          conclusion := data.conclusion, conclusion_code := data.conclusion_code,
          fhir_id := uuid }
      { status := 201, body := .null,
        db := { db with
                reports := db.reports ++ [⟨db.next_report_id, report⟩],
                next_report_id := db.next_report_id + 1 } }

/-- Model of `update_report` in `app/routes/reports.py`: pydantic
`TestReportUpdate` exposes only `status`, `conclusion`, `conclusion_code`
(over-approximated by arbitrary replacement values). -/
def update_report (db : DB) (report_id : Nat) (status : String)
    (conclusion conclusion_code : Option String) : RouteResult :=
  match db.findReport report_id with
  | some _ =>
      { status := 200, body := .null,
        db := { db with reports := db.reports.map (fun r =>
                  if r.id = report_id then
                    ⟨r.id, { r.m with
                             status := status, conclusion := conclusion,
                             conclusion_code := conclusion_code }⟩
                  else r) } }
  | none => { status := 404, body := .null, db := db }

/-- Model of `delete_report` in `app/routes/reports.py`: related
observations are deleted first, then the report. -/
def delete_report (db : DB) (report_id : Nat) : RouteResult :=
  match db.findReport report_id with
  | some _ =>
      { status := 200,
        body := .obj [("message", .str "Report deleted successfully")],
        db := { db with
                observations := db.observations.filter (fun o => ¬ o.m.report_id = report_id),
                reports := db.reports.filter (fun r => ¬ r.id = report_id) } }
  | none => { status := 404, body := .null, db := db }

/-- Model of `create_observation` in `app/routes/observations.py`: the
referenced patient, report and biomarker must all exist. -/
def create_observation (db : DB) (data : ObservationCreate) (uuid : String) : RouteResult :=
  match db.findPatient data.patient_id with
  | none => { status := 404, body := .obj [("error", .str "Patient not found")], db := db }
  | some _ =>
    match db.findReport data.report_id with
    | none => { status := 404, body := .obj [("error", .str "Report not found")], db := db }
    | some _ =>
      if db.biomarkers.contains data.biomarker_id then
        let observation : Observation :=
          { patient_id := data.patient_id, report_id := data.report_id,
            biomarker_id := data.biomarker_id,
            effective_datetime := data.effective_datetime,
            value := some data.value, status := data.status,
            category := data.category, unit := data.unit,
            ref_min := data.ref_min, ref_max := data.ref_max,
            interpretation := data.interpretation, notes := data.notes,
            performer := data.performer, specimen := data.specimen,
            method := data.method, fhir_id := uuid }
        { status := 201, body := .null,
          db := { db with
                  observations := db.observations ++ [⟨db.next_observation_id, observation⟩],
                  next_observation_id := db.next_observation_id + 1 } }
      else { status := 404, body := .obj [("error", .str "Biomarker not found")], db := db }

/-- Model of `update_observation` in `app/routes/observations.py`: pydantic
`ObservationUpdate` exposes no id fields; the updatable fields are
over-approximated by arbitrary replacement values. -/
def update_observation (db : DB) (observation_id : Nat) (value : Option ℚ)
    (status : String) (unit : Option String) (ref_min ref_max : Option ℚ)
    (interpretation notes performer specimen method : Option String) : RouteResult :=
  match db.findObservation observation_id with
  | some _ =>
      { status := 200, body := .null,
        db := { db with observations := db.observations.map (fun o =>
                  if o.id = observation_id then
                    ⟨o.id, { o.m with
                             value := value, status := status, unit := unit,
                             ref_min := ref_min, ref_max := ref_max,
                             interpretation := interpretation, notes := notes,
                             performer := performer, specimen := specimen,
                             method := method }⟩
                  else o) } }
  | none => { status := 404, body := .null, db := db }

/-- Model of `delete_observation` in `app/routes/observations.py`. -/
def delete_observation (db : DB) (observation_id : Nat) : RouteResult :=
  match db.findObservation observation_id with
  | some _ =>
      { status := 200,
        body := .obj [("message", .str "Observation deleted successfully")],
        db := { db with observations := db.observations.filter (fun o => ¬ o.id = observation_id) } }
  | none => { status := 404, body := .null, db := db }

/-- Model of `upload_document` in `app/routes/documents.py` (after file
validation): the patient must exist, and the report too when `report_id`
is truthy. -/
def upload_document (db : DB) (data : DocumentCreate) (uuid : String) : RouteResult :=
  match db.findPatient data.patient_id with
  | none => { status := 404, body := .obj [("error", .str "Patient not found")], db := db }
  | some _ =>
      let insert : RouteResult :=
        let document : MedicalDocument :=
          { patient_id := data.patient_id, report_id := data.report_id,
            filename := data.filename, filepath := data.filepath,
            file_type := data.file_type, file_size := data.file_size,
            description := data.description, fhir_id := uuid }
        { status := 201, body := .null,
          db := { db with
                  documents := db.documents ++ [⟨db.next_document_id, document⟩],
                  next_document_id := db.next_document_id + 1 } }
      if optNatTruthy data.report_id then
        match db.findReport (data.report_id.getD 0) with
        | none => { status := 404, body := .obj [("error", .str "Report not found")], db := db }
        | some _ => insert
      else insert

/-- Model of `delete_document` in `app/routes/documents.py`. -/
def delete_document (db : DB) (document_id : Nat) : RouteResult :=
  match db.findDocument document_id with
  | some _ =>
      { status := 200,
        body := .obj [("message", .str "Document deleted successfully")],
        db := { db with documents := db.documents.filter (fun d => ¬ d.id = document_id) } }
  | none => { status := 404, body := .null, db := db }

end RestAPI

namespace FhirAPI

open JSON FHIRMapper

/-- The subject extraction shared by the FHIR observation/report routes:
`resource.get('subject', \x7b\x7d).get('reference', '')`; a non-dict
`subject` or a non-string reference raises into the handler's generic
`except` (a 400 with unchanged state). -/
def subjectRef (resource : JSON) : Option String := do
  let sv ← dictGetD resource "subject" (.obj [])
  asStr (← dictGetD sv "reference" (.str ""))

/-- Python `str.startswith`, as a structural prefix test on the character
list. -/
def pyStartsWith (s pre : String) : Bool := pre.data.isPrefixOf s.data

/-- Python `str.split(sep)` for a one-character separator, as a structural
recursion on the character list. -/
def pySplitAux (c : Char) : List Char → List Char → List String
  | [], acc => [⟨acc.reverse⟩]
  | x :: xs, acc =>
      if x = c then ⟨acc.reverse⟩ :: pySplitAux c xs []
      else pySplitAux c xs (x :: acc)

def pySplit (s : String) (c : Char) : List String := pySplitAux c s.data []

/-- The patient FHIR id taken from a `Patient/...` reference:
`subject_ref.split('/')[1]`. -/
def refFhirId (ref : String) : String := (pySplit ref '/').getD 1 ""

/-- Model of `create_patient` in `app/routes/fhir.py`: the profile cap is
checked first, then `fhir_to_patient` runs inside the `try`. -/
def create_patient (db : DB) (resource : JSON) (uuid : String) : RouteResult :=
  if db.patients.length ≥ Config.MAX_PATIENT_PROFILES then
    { status := 400,
      body := .obj [("error", .str "Maximum number of patient profiles (4) reached")],
      db := db }
  else
    match fhir_to_patient resource uuid with
    | some patient =>
        { status := 201, body := .null,
          db := { db with
                  patients := db.patients ++ [⟨db.next_patient_id, patient⟩],
                  next_patient_id := db.next_patient_id + 1 } }
    | none => { status := 400, body := .null, db := db }

/-- Model of `update_patient` in `app/routes/fhir.py`: the row found by
FHIR id gets the four mapped fields of the converted resource; a conversion
failure rolls back. -/
def update_patient (db : DB) (patient_fhir_id : String) (resource : JSON)
    (uuid : String) : RouteResult :=
  match db.findPatientByFhirId patient_fhir_id with
  | none => { status := 404, body := .null, db := db }
  | some row =>
    match fhir_to_patient resource uuid with
    | some up =>
        { status := 200, body := .null,
          db := { db with patients := db.patients.map (fun p =>
                    if p.id = row.id then
                      ⟨p.id, { p.m with
                               name := up.name, birth_date := up.birth_date,
                               gender := up.gender, notes := up.notes }⟩
                    else p) } }
    | none => { status := 400, body := .null, db := db }

/-- Model of `patch_patient` in `app/routes/fhir.py`, over-approximated as
an arbitrary replacement of the four patchable fields of the row found by
FHIR id (the source only ever narrows these updates). -/
def patch_patient (db : DB) (patient_fhir_id : String) (name : String)
    (birth_date : Option PyDateTime) (gender notes : Option String) : RouteResult :=
  match db.findPatientByFhirId patient_fhir_id with
  | none => { status := 404, body := .null, db := db }
  | some row =>
      { status := 200, body := .null,
        db := { db with patients := db.patients.map (fun p =>
                  if p.id = row.id then
                    ⟨p.id, { p.m with
                             name := name, birth_date := birth_date,
                             gender := gender, notes := notes }⟩
                  else p) } }

/-- Model of `delete_patient` in `app/routes/fhir.py`: documents,
observations and reports of the patient are deleted before the patient. -/
def delete_patient (db : DB) (patient_fhir_id : String) : RouteResult :=
  match db.findPatientByFhirId patient_fhir_id with
  | none => { status := 404, body := .null, db := db }
  | some row =>
      { status := 204, body := .null,
        db := { db with
                documents := db.documents.filter (fun d => ¬ d.m.patient_id = row.id),
                observations := db.observations.filter (fun o => ¬ o.m.patient_id = row.id),
                reports := db.reports.filter (fun r => ¬ r.m.patient_id = row.id),
                patients := db.patients.filter (fun p => ¬ p.id = row.id) } }

/-- Model of `create_observation` in `app/routes/fhir.py`: the subject
reference must resolve to an existing patient, but the report id is the
hard-coded placeholder 1, inserted without any referential check (SQLite
does not enforce foreign keys without a pragma the app never issues).
When the converted observation has `value = None`, the commit violates the
`NOT NULL` constraint on `observations.value` (`models.py`), the handler's
`except` rolls back and returns 400 with the state unchanged. -/
def create_observation (db : DB) (resource : JSON) (uuid : String) : RouteResult :=
  match subjectRef resource with
  | none => { status := 400, body := .null, db := db }
  | some ref =>
    if ¬ pyStartsWith ref "Patient/" then
      { status := 400, body := .obj [("error", .str "Invalid patient reference")], db := db }
    else
      match db.findPatientByFhirId (refFhirId ref) with
      | none => { status := 404, body := .obj [("error", .str "Patient not found")], db := db }
      | some patient =>
        match fhir_to_observation resource patient.id 1 uuid with
        | some observation =>
            if observation.value.isSome then
              { status := 201, body := .null,
                db := { db with
                        observations := db.observations ++ [⟨db.next_observation_id, observation⟩],
                        next_observation_id := db.next_observation_id + 1 } }
            else { status := 400, body := .null, db := db }
        | none => { status := 400, body := .null, db := db }

/-- Model of `update_observation` in `app/routes/fhir.py`: the converted
resource replaces the row found by FHIR id, keeping its primary key, its
FHIR id and its `report_id`, with `patient_id` resolved from the subject
reference.  When the converted observation has `value = None`, the commit
violates the `NOT NULL` constraint on `observations.value`, the handler's
`except` rolls back and returns 400 with the state unchanged. -/
def update_observation (db : DB) (observation_fhir_id : String) (resource : JSON)
    (uuid : String) : RouteResult :=
  match db.findObservationByFhirId observation_fhir_id with
  | none => { status := 404, body := .null, db := db }
  | some orow =>
    match subjectRef resource with
    | none => { status := 400, body := .null, db := db }
    | some ref =>
      if ¬ pyStartsWith ref "Patient/" then
        { status := 400, body := .obj [("error", .str "Invalid patient reference")], db := db }
      else
        match db.findPatientByFhirId (refFhirId ref) with
        | none => { status := 404, body := .obj [("error", .str "Patient not found")], db := db }
        | some patient =>
          match fhir_to_observation resource patient.id orow.m.report_id uuid with
          | some u =>
              if u.value.isSome then
                { status := 200, body := .null,
                  db := { db with observations := db.observations.map (fun o =>
                            if o.id = orow.id then
                              ⟨o.id, { u with fhir_id := observation_fhir_id }⟩
                            else o) } }
              else { status := 400, body := .null, db := db }
          | none => { status := 400, body := .null, db := db }

/-- Model of `delete_observation` in `app/routes/fhir.py`. -/
def delete_observation (db : DB) (observation_fhir_id : String) : RouteResult :=
  match db.findObservationByFhirId observation_fhir_id with
  | none => { status := 404, body := .null, db := db }
  | some orow =>
      { status := 204, body := .null,
        db := { db with observations := db.observations.filter (fun o => ¬ o.id = orow.id) } }

/-- Model of `create_report` in `app/routes/fhir.py`. -/
def create_report (db : DB) (resource : JSON) (uuid : String) : RouteResult :=
  match subjectRef resource with
  | none => { status := 400, body := .null, db := db }
  | some ref =>
    if ¬ pyStartsWith ref "Patient/" then
      { status := 400, body := .obj [("error", .str "Invalid patient reference")], db := db }
    else
      match db.findPatientByFhirId (refFhirId ref) with
      | none => { status := 404, body := .obj [("error", .str "Patient not found")], db := db }
      | some patient =>
        match fhir_to_report resource patient.id uuid with
        | some report =>
            { status := 201, body := .null,
              db := { db with
                      reports := db.reports ++ [⟨db.next_report_id, report⟩],
                      next_report_id := db.next_report_id + 1 } }
        | none => { status := 400, body := .null, db := db }

/-- Model of `update_report` in `app/routes/fhir.py`: the converted
resource replaces the row found by FHIR id, keeping the primary key, the
FHIR id and the original `patient_id` (the handler restores it
explicitly). -/
def update_report (db : DB) (report_fhir_id : String) (resource : JSON)
    (uuid : String) : RouteResult :=
  match db.findReportByFhirId report_fhir_id with
  | none => { status := 404, body := .null, db := db }
  | some rrow =>
    match subjectRef resource with
    | none => { status := 400, body := .null, db := db }
    | some ref =>
      if ¬ pyStartsWith ref "Patient/" then
        { status := 400, body := .obj [("error", .str "Invalid patient reference")], db := db }
      else
        match db.findPatientByFhirId (refFhirId ref) with
        | none => { status := 404, body := .obj [("error", .str "Patient not found")], db := db }
        | some patient =>
          match fhir_to_report resource patient.id uuid with
          | some u =>
              { status := 200, body := .null,
                db := { db with reports := db.reports.map (fun r =>
                          if r.id = rrow.id then
                            ⟨r.id, { u with
                                     fhir_id := report_fhir_id,
                                     patient_id := rrow.m.patient_id }⟩
                          else r) } }
          | none => { status := 400, body := .null, db := db }

/-- Model of `delete_report` in `app/routes/fhir.py`: observations of the
report are deleted first, then the report. -/
def delete_report (db : DB) (report_fhir_id : String) : RouteResult :=
  match db.findReportByFhirId report_fhir_id with
  | none => { status := 404, body := .null, db := db }
  | some rrow =>
      { status := 204, body := .null,
        db := { db with
                observations := db.observations.filter (fun o => ¬ o.m.report_id = rrow.id),
                reports := db.reports.filter (fun r => ¬ r.id = rrow.id) } }

end FhirAPI

/-- One request to any of the modelled state-changing route handlers.
The bundle-import endpoint (`POST /fhir/Bundle`) and the zip
backup/restore endpoints are outside the modelled surface (the spec
excludes them from the core), as are the read-only handlers. -/
inductive Step : DB → DB → Prop where
  | rest_create_patient (db : DB) (data : PatientCreate) (uuid : String) :
      Step db (RestAPI.create_patient db data uuid).db
  | rest_update_patient (db : DB) (pid : Nat) (name : String)
      (bd : Option PyDateTime) (g n : Option String) :
      Step db (RestAPI.update_patient db pid name bd g n).db
  | rest_delete_patient (db : DB) (pid : Nat) :
      Step db (RestAPI.delete_patient db pid).db
  | rest_create_report (db : DB) (data : TestReportCreate) (uuid : String) :
      Step db (RestAPI.create_report db data uuid).db
  | rest_update_report (db : DB) (rid : Nat) (st : String) (c cc : Option String) :
      Step db (RestAPI.update_report db rid st c cc).db
  | rest_delete_report (db : DB) (rid : Nat) :
      Step db (RestAPI.delete_report db rid).db
  | rest_create_observation (db : DB) (data : ObservationCreate) (uuid : String) :
      Step db (RestAPI.create_observation db data uuid).db
  | rest_update_observation (db : DB) (oid : Nat) (v : Option ℚ) (st : String)
      (u : Option String) (rmin rmax : Option ℚ) (i n p sp me : Option String) :
      Step db (RestAPI.update_observation db oid v st u rmin rmax i n p sp me).db
  | rest_delete_observation (db : DB) (oid : Nat) :
      Step db (RestAPI.delete_observation db oid).db
  | rest_upload_document (db : DB) (data : DocumentCreate) (uuid : String) :
      Step db (RestAPI.upload_document db data uuid).db
  | rest_delete_document (db : DB) (did : Nat) :
      Step db (RestAPI.delete_document db did).db
  | fhir_create_patient (db : DB) (resource : JSON) (uuid : String) :
      Step db (FhirAPI.create_patient db resource uuid).db
  | fhir_update_patient (db : DB) (fid : String) (resource : JSON) (uuid : String) :
      Step db (FhirAPI.update_patient db fid resource uuid).db
  | fhir_patch_patient (db : DB) (fid : String) (name : String)
      (bd : Option PyDateTime) (g n : Option String) :
      Step db (FhirAPI.patch_patient db fid name bd g n).db
  | fhir_delete_patient (db : DB) (fid : String) :
      Step db (FhirAPI.delete_patient db fid).db
  | fhir_create_observation (db : DB) (resource : JSON) (uuid : String) :
      Step db (FhirAPI.create_observation db resource uuid).db
  | fhir_update_observation (db : DB) (fid : String) (resource : JSON) (uuid : String) :
      Step db (FhirAPI.update_observation db fid resource uuid).db
  | fhir_delete_observation (db : DB) (fid : String) :
      Step db (FhirAPI.delete_observation db fid).db
  | fhir_create_report (db : DB) (resource : JSON) (uuid : String) :
      Step db (FhirAPI.create_report db resource uuid).db
  | fhir_update_report (db : DB) (fid : String) (resource : JSON) (uuid : String) :
      Step db (FhirAPI.update_report db fid resource uuid).db
  | fhir_delete_report (db : DB) (fid : String) :
      Step db (FhirAPI.delete_report db fid).db

/-- Database states reachable from a freshly initialised database by
modelled requests. -/
inductive Reachable : DB → Prop where
  | init (bms : List Nat) : Reachable (DB.init bms)
  | step {db db' : DB} : Reachable db → Step db db' → Reachable db'

/-- Every observation row references an existing patient row. -/
def obsPatientsOK (db : DB) : Prop :=
  ∀ o ∈ db.observations, ∃ p ∈ db.patients, p.id = o.m.patient_id

/-- Every report row references an existing patient row. -/
def reportsPatientsOK (db : DB) : Prop :=
  ∀ r ∈ db.reports, ∃ p ∈ db.patients, p.id = r.m.patient_id

/-- Every observation row references an existing report row. -/
def obsReportsOK (db : DB) : Prop :=
  ∀ o ∈ db.observations, ∃ r ∈ db.reports, r.id = o.m.report_id

/-- The referential-integrity invariant as the specification states it:
each observation references an existing report which references an
existing patient. -/
def specRefIntegrity (db : DB) : Prop :=
  ∀ o ∈ db.observations, ∃ r ∈ db.reports,
    r.id = o.m.report_id ∧ ∃ p ∈ db.patients, p.id = r.m.patient_id

theorem optBind_eq_some {α β : Type} {x : Option α} {f : α → Option β} {b : β} :
    x >>= f = some b ↔ ∃ a, x = some a ∧ f a = some b := by
  cases x <;> simp

/-- No top-level key of a JSON object maps to `null` (vacuously true for
non-objects). -/
def topNoNulls (j : JSON) : Prop :=
  ∀ kvs, j = JSON.obj kvs → ∀ kv ∈ kvs, kv.2 ≠ JSON.null

theorem topNoNulls_removeNoneTop (kvs : List (String × JSON)) :
    topNoNulls (JSON.obj (JSON.removeNoneTop kvs)) := by
  intro kvs' h kv hm
  cases h
  have := List.mem_filter.mp hm
  simpa using this.2

/-- C2.  The FHIR JSON produced by the three outbound mappers contains no
null field: no top-level key of a `patient_to_fhir` or `report_to_fhir`
object maps to `None`, and no key at any nesting depth (in dicts or lists)
of an `observation_to_fhir` object maps to `None`. -/
theorem C2_no_null_values :
    (∀ p : Patient, topNoNulls (FHIRMapper.patient_to_fhir p)) ∧
    (∀ (r : TestReport) (issued : PyDateTime) (pf : String),
      topNoNulls (FHIRMapper.report_to_fhir r issued pf)) ∧
    (∀ (o : Observation) (bm : Biomarker) (pf : String),
      JSON.noNulls (FHIRMapper.observation_to_fhir o bm pf) = true) := by
  refine ⟨fun p => ?_, fun r issued pf => ?_, fun o bm pf => ?_⟩
  · exact topNoNulls_removeNoneTop _
  · exact topNoNulls_removeNoneTop _
  · exact JSON.noNulls_remNone _

/-- C10.  `report_to_fhir` in `src/app` always emits an empty `result`
list, even though the report may have observations, while the
`bloodwork-tracker` copy emits one `Observation/<fhir_id>` reference per
observation of the report, in order. -/
theorem C10_result_lists :
    (∀ (r : TestReport) (issued : PyDateTime) (pf : String),
      JSON.lookup (FHIRMapper.report_to_fhir r issued pf) "result" = some (.arr [])) ∧
    (∀ (r : TestReport) (issued : Option PyDateTime) (pf : String)
       (obsIds : List String),
      JSON.lookup (BW.report_fhir r issued pf obsIds) "result" =
        some (.arr (obsIds.map
          (fun i => JSON.obj [("reference", JSON.str ("Observation/" ++ i))])))) := by
  constructor
  · intro r issued pf
    simp [FHIRMapper.report_to_fhir, JSON.removeNoneTop, JSON.lookup, List.filter,
      List.lookup]
  · intro r issued pf obsIds
    cases issued <;> cases obsIds <;>
      simp [BW.report_fhir, JSON.removeNoneTop, JSON.lookup, List.filter, List.lookup]

/-- Whether a FHIR resource carries a usable category coding: a truthy
`category` entry whose first element has a truthy `coding` list whose first
element has a `code` key. -/
def categoryCodeFound (fo : JSON) : Bool :=
  match JSON.dictGetD fo "category" (.arr []) with
  | none => false
  | some cats =>
    if cats.truthy then
      match JSON.index0 cats with
      | none => false
      | some c0 =>
        match JSON.dictGetD c0 "coding" (.arr []) with
        | none => false
        | some codings =>
          if codings.truthy then
            match JSON.index0 codings with
            | none => false
            | some cd0 => (JSON.lookup cd0 "code").isSome
          else false
    else false

theorem extract_category_default (fo : JSON) (c : String)
    (h : FHIRMapper.extract_category fo = some c)
    (hn : categoryCodeFound fo = false) : c = "laboratory" := by
  unfold FHIRMapper.extract_category at h
  unfold categoryCodeFound at hn
  simp only [optBind_eq_some, Option.pure_def, Option.some.injEq] at h
  obtain ⟨cats, hcats, h⟩ := h
  rw [hcats] at hn
  by_cases ht : cats.truthy
  · simp only [ht, if_true] at h hn
    simp only [optBind_eq_some, Option.pure_def, Option.some.injEq] at h
    obtain ⟨c0, hc0, h⟩ := h
    simp only [hc0] at hn
    obtain ⟨codings, hcod, h⟩ := h
    simp only [hcod] at hn
    by_cases ht2 : codings.truthy
    · simp only [ht2, if_true] at h hn
      simp only [optBind_eq_some, Option.pure_def, Option.some.injEq] at h
      obtain ⟨cd0, hcd0, h⟩ := h
      simp only [hcd0] at hn
      obtain ⟨v, hv, hvc⟩ := h
      cases cd0 with
      | obj kvs2 =>
          simp only [JSON.dictGetD, Option.some.injEq] at hv
          simp only [JSON.lookup] at hn
          have hn2 : List.lookup "code" kvs2 = none := by
            cases hlk : List.lookup "code" kvs2 <;> simp [hlk] at hn ⊢
          rw [hn2] at hv
          simp only [Option.getD_none] at hv
          rw [← hv] at hvc
          simp [JSON.asStr] at hvc
          exact hvc.symm
      | null => simp [JSON.dictGetD] at hv
      | bool b => simp [JSON.dictGetD] at hv
      | num q => simp [JSON.dictGetD] at hv
      | str s => simp [JSON.dictGetD] at hv
      | arr xs => simp [JSON.dictGetD] at hv
    · simp only [ht2, if_false] at h
      simp at h
      exact h.symm
  · simp only [ht, if_false] at h
    simp at h
    exact h.symm

theorem fhir_to_observation_components (fo : JSON) (pid rid : Nat) (u : String)
    (o : Observation) (h : FHIRMapper.fhir_to_observation fo pid rid u = some o) :
    (∃ kvs, fo = JSON.obj kvs) ∧
    (∃ sv, JSON.dictGetD fo "status" (.str "unknown") = some sv ∧
      JSON.asStr sv = some o.status) ∧
    FHIRMapper.extract_category fo = some o.category ∧
    (∃ edt, JSON.getItem fo "effectiveDateTime" = some edt) := by
  simp only [FHIRMapper.fhir_to_observation, optBind_eq_some, Option.pure_def,
    Option.some.injEq] at h
  obtain ⟨c1, hc1, c2, hc2, ho⟩ := h
  simp only [FHIRMapper.obsCore1, optBind_eq_some, Option.pure_def,
    Option.some.injEq] at hc1
  obtain ⟨vu, hvu, rr, hrr, itp, hitp, lo, hlo, edt, hedt, es, hes, eff, heff, hc1e⟩ := hc1
  simp only [FHIRMapper.obsCore2, optBind_eq_some, Option.pure_def,
    Option.some.injEq] at hc2
  obtain ⟨sj, hsj, st, hst, cat, hcat, nts, hnts, prf, hprf, spc, hspc, mth, hmth,
    fid, hfid, hc2e⟩ := hc2
  have hobj : ∃ kvs, fo = JSON.obj kvs := by
    unfold FHIRMapper.valueUnitOfFhir at hvu
    simp only [optBind_eq_some] at hvu
    obtain ⟨vq, hvq, _⟩ := hvu
    cases fo <;> simp [JSON.dictGetD] at hvq ⊢
  subst hc1e
  subst hc2e
  refine ⟨hobj, ⟨sj, hsj, ?_⟩, ?_, ⟨edt, hedt⟩⟩
  · rw [hst, ← ho]
  · rw [hcat, ← ho]

theorem fhir_to_report_components (fr : JSON) (pid : Nat) (u : String)
    (r : TestReport) (h : FHIRMapper.fhir_to_report fr pid u = some r) :
    (∃ kvs, fr = JSON.obj kvs) ∧
    (∃ sv, JSON.dictGetD fr "status" (.str "unknown") = some sv ∧
      JSON.asStr sv = some r.status) ∧
    FHIRMapper.extract_diagnostic_category fr = some r.category ∧
    (∃ edt, JSON.getItem fr "effectiveDateTime" = some edt) := by
  simp only [FHIRMapper.fhir_to_report, optBind_eq_some, Option.pure_def,
    Option.some.injEq] at h
  obtain ⟨edt, hedt, es, hes, eff, heff, sj, hsj, st, hst, cat, hcat,
    con, hcon, cc, hcc, ccode, hccode, fid, hfid, ho⟩ := h
  have hobj : ∃ kvs, fr = JSON.obj kvs := by
    cases fr <;> simp [JSON.getItem] at hedt ⊢
  refine ⟨hobj, ⟨sj, hsj, ?_⟩, ?_, ⟨edt, hedt⟩⟩
  · rw [hst, ← ho]
  · rw [hcat, ← ho]

theorem status_default_of_lookup_none (j : JSON) (kvs : List (String × JSON))
    (sv : JSON) (st : String) (hj : j = JSON.obj kvs)
    (h : JSON.dictGetD j "status" (.str "unknown") = some sv)
    (hs : JSON.asStr sv = some st)
    (hk : JSON.lookup j "status" = none) : st = "unknown" := by
  subst hj
  simp only [JSON.lookup] at hk
  simp only [JSON.dictGetD, hk, Option.getD_none, Option.some.injEq] at h
  rw [← h] at hs
  simp [JSON.asStr] at hs
  exact hs.symm

/-- The diagnostic-category extractor is the same computation as the
observation one. -/
theorem extract_diagnostic_category_eq (fr : JSON) :
    FHIRMapper.extract_diagnostic_category fr = FHIRMapper.extract_category fr := rfl

/-- C3.  The inbound converters default missing fields: `fhir_to_observation`
returns status `"unknown"` when the resource has no `status` key and
category `"laboratory"` when it has no usable category coding;
`fhir_to_report` does the same; `fhir_to_patient` returns name
`"Unknown Patient"` when the resource yields no non-empty name text (its
computed, stripped name candidate is empty). -/
theorem C3_inbound_defaults :
    (∀ (fo : JSON) (pid rid : Nat) (u : String) (o : Observation),
      FHIRMapper.fhir_to_observation fo pid rid u = some o →
      (JSON.lookup fo "status" = none → o.status = "unknown") ∧
      (categoryCodeFound fo = false → o.category = "laboratory")) ∧
    (∀ (fr : JSON) (pid : Nat) (u : String) (r : TestReport),
      FHIRMapper.fhir_to_report fr pid u = some r →
      (JSON.lookup fr "status" = none → r.status = "unknown") ∧
      (categoryCodeFound fr = false → r.category = "laboratory")) ∧
    (∀ (fp : JSON) (u : String) (p : Patient),
      FHIRMapper.fhir_to_patient fp u = some p →
      FHIRMapper.nameCandidate fp = some "" →
      p.name = "Unknown Patient") := by
  refine ⟨fun fo pid rid u o h => ?_, fun fr pid u r h => ?_, fun fp u p h hname => ?_⟩
  · obtain ⟨⟨kvs, hobj⟩, ⟨sv, hsv, hst⟩, hcat, _⟩ :=
      fhir_to_observation_components fo pid rid u o h
    exact ⟨fun hk => status_default_of_lookup_none fo kvs sv o.status hobj hsv hst hk,
      fun hn => extract_category_default fo o.category hcat hn⟩
  · obtain ⟨⟨kvs, hobj⟩, ⟨sv, hsv, hst⟩, hcat, _⟩ :=
      fhir_to_report_components fr pid u r h
    rw [extract_diagnostic_category_eq] at hcat
    exact ⟨fun hk => status_default_of_lookup_none fr kvs sv r.status hobj hsv hst hk,
      fun hn => extract_category_default fr r.category hcat hn⟩
  · simp only [FHIRMapper.fhir_to_patient, optBind_eq_some, Option.pure_def,
      Option.some.injEq] at h
    obtain ⟨stripped, hstr, rest⟩ := h
    have hse : stripped = "" := by
      rw [hname] at hstr
      exact (Option.some.inj hstr).symm
    subst hse
    obtain ⟨g, hg, gv, hgv, bd, hbd, nts, hnts, fid, hfid, ho⟩ := rest
    rw [← ho]
    simp

/-- Witness for C3 at concrete resources exercising all three defaults. -/
theorem C3_inbound_defaults_witness :
    (FHIRMapper.fhir_to_observation
        (.obj [("effectiveDateTime", .str "2024-01-02T03:04:05")]) 7 8 "u" =
      some { patient_id := 7, report_id := 8, biomarker_id := 1,
             status := "unknown", category := "laboratory",
             effective_datetime := ⟨2024, 1, 2, 3, 4, 5⟩, value := none,
             unit := none, ref_min := none, ref_max := none,
             interpretation := none, notes := none, performer := none,
             specimen := none, method := none, fhir_id := "u" }) ∧
    (∀ o, FHIRMapper.fhir_to_observation
        (.obj [("effectiveDateTime", .str "2024-01-02T03:04:05")]) 7 8 "u" = some o →
      o.status = "unknown" ∧ o.category = "laboratory") ∧
    (∀ p, FHIRMapper.fhir_to_patient (.obj []) "u" = some p →
      p.name = "Unknown Patient") := by
  refine ⟨by decide, fun o h => ?_, fun p h => ?_⟩
  · exact ⟨(C3_inbound_defaults.1 _ 7 8 "u" o h).1 (by decide),
      (C3_inbound_defaults.1 _ 7 8 "u" o h).2 (by decide)⟩
  · exact C3_inbound_defaults.2.2 _ "u" p h (by decide)

/-- C6, counterexample to the claim as stated: a resource whose `birthDate`
value is present but not a valid ISO date string (the empty string) does
not make `fhir_to_patient` raise — the falsy value skips the
`fromisoformat` call and the conversion succeeds with no birth date. -/
theorem C6_counterexample :
    JSON.lookup (JSON.obj [("birthDate", JSON.str "")]) "birthDate" = some (JSON.str "") ∧
    fromisoformat "" = none ∧
    FHIRMapper.fhir_to_patient (JSON.obj [("birthDate", JSON.str "")]) "u" =
      some { name := "Unknown Patient", birth_date := none, gender := none,
             notes := none, fhir_id := "u" } := by
  refine ⟨by decide, by decide, by decide⟩

/-- C6 as amended.  The inbound converters raise on malformed input:
`fhir_to_observation` fails on every resource lacking the
`effectiveDateTime` key, and `fhir_to_patient` fails whenever the
`birthDate` value is present and truthy but is not a string parsed by
`fromisoformat` (a falsy `birthDate` such as `""` or `null` is skipped, not
an error). -/
theorem C6_raise_on_malformed :
    (∀ (fo : JSON) (pid rid : Nat) (u : String),
      JSON.lookup fo "effectiveDateTime" = none →
      FHIRMapper.fhir_to_observation fo pid rid u = none) ∧
    (∀ (fp : JSON) (u : String) (v : JSON),
      JSON.lookup fp "birthDate" = some v → v.truthy = true →
      (∀ s, v = JSON.str s → fromisoformat s = none) →
      FHIRMapper.fhir_to_patient fp u = none) := by
  constructor
  · intro fo pid rid u hk
    cases h : FHIRMapper.fhir_to_observation fo pid rid u with
    | none => rfl
    | some o =>
        exfalso
        obtain ⟨⟨kvs, rfl⟩, _, _, edt, hedt⟩ :=
          fhir_to_observation_components fo pid rid u o h
        simp only [JSON.getItem] at hedt
        simp only [JSON.lookup] at hk
        rw [hk] at hedt
        exact Option.noConfusion hedt
  · intro fp u v hv htr hbad
    cases h : FHIRMapper.fhir_to_patient fp u with
    | none => rfl
    | some p =>
        exfalso
        simp only [FHIRMapper.fhir_to_patient, optBind_eq_some, Option.pure_def,
          Option.some.injEq] at h
        obtain ⟨stripped, hstr, g, hg, gv, hgv, bd, hbd, nts, hnts, fid, hfid, ho⟩ := h
        simp only [FHIRMapper.birthDateOf, optBind_eq_some] at hbd
        obtain ⟨bdVal, hbdVal, hbd2⟩ := hbd
        have hfpobj : ∃ kvs, fp = JSON.obj kvs := by
          cases fp <;> simp [JSON.dictGetD] at hbdVal ⊢
        obtain ⟨kvs, rfl⟩ := hfpobj
        simp only [JSON.lookup] at hv
        simp only [JSON.dictGetD, hv, Option.getD_some, Option.some.injEq] at hbdVal
        subst hbdVal
        rw [htr] at hbd2
        simp only [if_true, optBind_eq_some] at hbd2
        obtain ⟨s, hs, d, hd, _⟩ := hbd2
        cases v <;> simp [JSON.asStr] at hs
        subst hs
        rw [hbad _ rfl] at hd
        exact Option.noConfusion hd

/-- Witness for the amended C6 at concrete malformed resources. -/
theorem C6_raise_on_malformed_witness :
    (JSON.lookup (JSON.obj [("status", JSON.str "final")]) "effectiveDateTime" = none ∧
      FHIRMapper.fhir_to_observation (JSON.obj [("status", JSON.str "final")]) 1 1 "u" = none) ∧
    (JSON.lookup (JSON.obj [("birthDate", JSON.str "not-a-date")]) "birthDate" =
        some (JSON.str "not-a-date") ∧
      FHIRMapper.fhir_to_patient (JSON.obj [("birthDate", JSON.str "not-a-date")]) "u" = none) := by
  constructor
  · exact ⟨by decide, C6_raise_on_malformed.1 _ 1 1 "u" (by decide)⟩
  · refine ⟨by decide, C6_raise_on_malformed.2 _ "u" (JSON.str "not-a-date") (by decide)
      (by decide) ?_⟩
    intro s hs
    injection hs with h
    rw [← h]
    decide

/-- The entry list the C9 claim describes: exactly the input resources that
have an `id` key, in input order, wrapped with
`fullUrl = "<resourceType>/<id>"`. -/
def expectedBundleEntries (resources : List JSON) : List JSON :=
  resources.filterMap (fun r =>
    match JSON.lookup r "id", JSON.lookup r "resourceType" with
    | some (JSON.str ids), some (JSON.str rts) =>
        some (JSON.obj [("fullUrl", JSON.str (rts ++ "/" ++ ids)), ("resource", r)])
    | _, _ => none)

/-- Shape assumption on a resource fed to `create_bundle`: a JSON object
carrying a string `resourceType`, whose `id`, when present, is a string. -/
def bundleResourceWF (r : JSON) : Prop :=
  (∃ kvs, r = JSON.obj kvs) ∧
  (∃ rt, JSON.lookup r "resourceType" = some (JSON.str rt)) ∧
  (∀ v, JSON.lookup r "id" = some v → ∃ s, v = JSON.str s)

theorem bundle_entries_aux (resources : List JSON)
    (hwf : ∀ r ∈ resources, bundleResourceWF r) :
    ∃ es, resources.mapM FHIRMapper.bundleEntry = some es ∧
      es.filter (fun e => JSON.lookup e "fullUrl" ≠ some JSON.null) =
        expectedBundleEntries resources := by
  induction resources with
  | nil => exact ⟨[], rfl, by simp [expectedBundleEntries]⟩
  | cons r rs ih =>
      obtain ⟨es, hes, hfil⟩ := ih (fun x hx => hwf x (List.mem_cons_of_mem r hx))
      obtain ⟨⟨kvs, rfl⟩, ⟨rts, hrt⟩, hid⟩ := hwf _ (List.mem_cons_self r rs)
      simp only [JSON.lookup] at hrt
      cases hidk : List.lookup "id" kvs with
      | none =>
          have hbe : FHIRMapper.bundleEntry (JSON.obj kvs) =
              some (JSON.obj [("fullUrl", JSON.null), ("resource", JSON.obj kvs)]) := by
            simp [FHIRMapper.bundleEntry, hidk]
          refine ⟨JSON.obj [("fullUrl", JSON.null), ("resource", JSON.obj kvs)] :: es, ?_, ?_⟩
          · rw [List.mapM_cons, hbe, hes]
            rfl
          · have h1 : List.filter (fun e => JSON.lookup e "fullUrl" ≠ some JSON.null)
                (JSON.obj [("fullUrl", JSON.null), ("resource", JSON.obj kvs)] :: es) =
                List.filter (fun e => JSON.lookup e "fullUrl" ≠ some JSON.null) es := by
              simp [JSON.lookup]
            have h2 : expectedBundleEntries (JSON.obj kvs :: rs) = expectedBundleEntries rs := by
              simp [expectedBundleEntries, List.filterMap_cons, JSON.lookup, hidk]
            rw [h1, h2, hfil]
      | some v =>
          obtain ⟨ids, rfl⟩ := hid v (by simpa [JSON.lookup] using hidk)
          have hbe : FHIRMapper.bundleEntry (JSON.obj kvs) =
              some (JSON.obj [("fullUrl", JSON.str (rts ++ "/" ++ ids)),
                ("resource", JSON.obj kvs)]) := by
            simp [FHIRMapper.bundleEntry, hidk, hrt, JSON.asStr]
          refine ⟨JSON.obj [("fullUrl", JSON.str (rts ++ "/" ++ ids)),
            ("resource", JSON.obj kvs)] :: es, ?_, ?_⟩
          · rw [List.mapM_cons, hbe, hes]
            rfl
          · have h1 : List.filter (fun e => JSON.lookup e "fullUrl" ≠ some JSON.null)
                (JSON.obj [("fullUrl", JSON.str (rts ++ "/" ++ ids)),
                  ("resource", JSON.obj kvs)] :: es) =
                JSON.obj [("fullUrl", JSON.str (rts ++ "/" ++ ids)),
                  ("resource", JSON.obj kvs)] ::
                List.filter (fun e => JSON.lookup e "fullUrl" ≠ some JSON.null) es := by
              simp [JSON.lookup]
            have h2 : expectedBundleEntries (JSON.obj kvs :: rs) =
                JSON.obj [("fullUrl", JSON.str (rts ++ "/" ++ ids)),
                  ("resource", JSON.obj kvs)] :: expectedBundleEntries rs := by
              simp [expectedBundleEntries, List.filterMap_cons, JSON.lookup, hidk, hrt]
            rw [h1, h2, hfil]

/-- C9.  For well-formed resource dicts, `create_bundle` returns a Bundle
whose `entry` list contains exactly the input resources that have an `id`
key, in input order, each wrapped with `fullUrl = "<resourceType>/<id>"`;
resources lacking an `id` key are silently dropped. -/
theorem C9_create_bundle (resources : List JSON) (t : String)
    (hwf : ∀ r ∈ resources, bundleResourceWF r) :
    FHIRMapper.create_bundle resources t =
      some (JSON.obj [("resourceType", JSON.str "Bundle"), ("type", JSON.str t),
        ("entry", JSON.arr (expectedBundleEntries resources))]) := by
  obtain ⟨es, hes, hfil⟩ := bundle_entries_aux resources hwf
  simp only [FHIRMapper.create_bundle, optBind_eq_some]
  refine ⟨es, hes, ?_⟩
  rw [hfil]
  rfl

/-- Witness for C9: one resource with an `id`, one without. -/
theorem C9_create_bundle_witness :
    (∀ r ∈ [JSON.obj [("resourceType", JSON.str "Patient"), ("id", JSON.str "a")],
            JSON.obj [("resourceType", JSON.str "Observation")]], bundleResourceWF r) ∧
    FHIRMapper.create_bundle
        [JSON.obj [("resourceType", JSON.str "Patient"), ("id", JSON.str "a")],
         JSON.obj [("resourceType", JSON.str "Observation")]] "collection" =
      some (JSON.obj [("resourceType", JSON.str "Bundle"),
        ("type", JSON.str "collection"),
        ("entry", JSON.arr [JSON.obj [("fullUrl", JSON.str "Patient/a"),
          ("resource", JSON.obj [("resourceType", JSON.str "Patient"),
            ("id", JSON.str "a")])]])]) := by
  have hwf : ∀ r ∈ [JSON.obj [("resourceType", JSON.str "Patient"), ("id", JSON.str "a")],
      JSON.obj [("resourceType", JSON.str "Observation")]], bundleResourceWF r := by
    intro r hr
    simp only [List.mem_cons, List.not_mem_nil, or_false] at hr
    rcases hr with rfl | rfl
    · refine ⟨⟨_, rfl⟩, ⟨"Patient", by decide⟩, fun v hv => ⟨"a", ?_⟩⟩
      have hlook : JSON.lookup (JSON.obj [("resourceType", JSON.str "Patient"),
          ("id", JSON.str "a")]) "id" = some (JSON.str "a") := by decide
      rw [hlook] at hv
      exact (Option.some.inj hv).symm
    · refine ⟨⟨_, rfl⟩, ⟨"Observation", by decide⟩, fun v hv => ?_⟩
      have hlook : JSON.lookup (JSON.obj [("resourceType", JSON.str "Observation")])
          "id" = none := by decide
      rw [hlook] at hv
      exact absurd hv (by simp)
  refine ⟨hwf, ?_⟩
  rw [C9_create_bundle _ "collection" hwf]
  decide

/-- A patient row with an uppercase gender, committed as row 1. -/
def genderCasePatient : Patient :=
  { id := some 1, name := "John Doe", birth_date := some ⟨1980, 1, 2, 0, 0, 0⟩,
    gender := some "Male", notes := some "n", fhir_id := "u-7" }

/-- C7, counterexample to the claim as stated: the two copies do not build
equal FHIR Patient resources — the `bloodwork-tracker` copy always adds
`active: true` (a key `src/app` never emits), and it emits the gender
verbatim where `src/app` lowercases it. -/
theorem C7_counterexample :
    BW.get_patient_fhir genderCasePatient ≠
      FHIRMapper.patient_to_fhir genderCasePatient ∧
    JSON.lookup (BW.get_patient_fhir genderCasePatient) "active" =
      some (JSON.bool true) ∧
    JSON.lookup (FHIRMapper.patient_to_fhir genderCasePatient) "active" = none ∧
    JSON.lookup (BW.get_patient_fhir genderCasePatient) "gender" =
      some (JSON.str "Male") ∧
    JSON.lookup (FHIRMapper.patient_to_fhir genderCasePatient) "gender" =
      some (JSON.str "male") := by
  refine ⟨by decide, by decide, by decide, by decide, by decide⟩

/-- Drop the `active` entry of a FHIR object. -/
def removeActiveKey (j : JSON) : JSON :=
  match j with
  | JSON.obj kvs => JSON.obj (kvs.filter (fun kv => kv.1 ≠ "active"))
  | _ => j

/-- C7 as amended.  The `bloodwork-tracker` copy emits `active: true`
(absent from the `src/app` resource), and apart from that extra key the two
copies build the same FHIR Patient resource (same keys in the same order,
same values for id, identifier, name, gender, birthDate and note) for every
patient row whose gender is absent or a non-empty lowercase string; for
other genders the two copies differ in the gender value (`src/app`
lowercases it and drops a falsy one). -/
theorem C7_patient_mapping_agreement (p : Patient)
    (hg : ∀ g, p.gender = some g → g ≠ "" ∧ pyLower g = g) :
    JSON.lookup (BW.get_patient_fhir p) "active" = some (JSON.bool true) ∧
    JSON.lookup (FHIRMapper.patient_to_fhir p) "active" = none ∧
    removeActiveKey (BW.get_patient_fhir p) = FHIRMapper.patient_to_fhir p := by
  obtain ⟨pid, nm, bd, g, nts, fid⟩ := p
  rcases g with _ | g
  · rcases bd with _ | bd <;> rcases nts with _ | n <;>
      try rcases eq_or_ne n "" with rfl | hn
    all_goals
      simp_all [BW.get_patient_fhir, FHIRMapper.patient_to_fhir, JSON.removeNoneTop,
        removeActiveKey, JSON.lookup, List.filter, List.lookup]
  · obtain ⟨hg1, hg2⟩ := hg g rfl
    rcases bd with _ | bd <;> rcases nts with _ | n <;>
      try rcases eq_or_ne n "" with rfl | hn
    all_goals
      simp_all [BW.get_patient_fhir, FHIRMapper.patient_to_fhir, JSON.removeNoneTop,
        removeActiveKey, JSON.lookup, List.filter, List.lookup]

/-- Witness for the amended C7 at a concrete patient row. -/
theorem C7_patient_mapping_agreement_witness :
    JSON.lookup (BW.get_patient_fhir
      { id := some 2, name := "Ana", birth_date := some ⟨1990, 5, 17, 0, 0, 0⟩,
        gender := some "female", notes := some "ok", fhir_id := "u-2" }) "active" =
      some (JSON.bool true) ∧
    JSON.lookup (FHIRMapper.patient_to_fhir
      { id := some 2, name := "Ana", birth_date := some ⟨1990, 5, 17, 0, 0, 0⟩,
        gender := some "female", notes := some "ok", fhir_id := "u-2" }) "active" = none ∧
    removeActiveKey (BW.get_patient_fhir
      { id := some 2, name := "Ana", birth_date := some ⟨1990, 5, 17, 0, 0, 0⟩,
        gender := some "female", notes := some "ok", fhir_id := "u-2" }) =
      FHIRMapper.patient_to_fhir
      { id := some 2, name := "Ana", birth_date := some ⟨1990, 5, 17, 0, 0, 0⟩,
        gender := some "female", notes := some "ok", fhir_id := "u-2" } :=
  C7_patient_mapping_agreement _ (fun g h => by
    injection h with h2
    rw [← h2]
    exact ⟨by decide, by decide⟩)

theorem optMap_bind {α β γ : Type} (x : Option α) (f : α → Option β) (g : β → γ) :
    (x >>= f).map g = x >>= (fun a => (f a).map g) := by
  cases x <;> simp

theorem optBind_congr {α β : Type} (x : Option α) (f g : α → Option β)
    (h : ∀ a, f a = g a) : x >>= f = x >>= g := by
  cases x <;> simp [h]

theorem optBind_congr2 {α β : Type} (x : Option α) (f g : α → Option β)
    (h : ∀ a, f a = g a) : x.bind f = x.bind g := by
  cases x <;> simp [h]

theorem optBind_assoc {α β γ : Type} (x : Option α) (f : α → Option β)
    (g : β → Option γ) : (x.bind f).bind g = x.bind (fun a => (f a).bind g) := by
  cases x <;> simp

theorem optBindM_assoc {α β γ : Type} (x : Option α) (f : α → Option β)
    (g : β → Option γ) : (x >>= f) >>= g = x >>= (fun a => f a >>= g) := by
  cases x <;> simp

/-- C4, counterexample to the claim as stated: on a resource without an
`"id"` key, each call of `fhir_to_patient` keeps the fresh UUID4 drawn by
`Patient.__init__`, so two calls on the same dict disagree on `fhir_id`. -/
theorem C4_counterexample :
    JSON.lookup (JSON.obj []) "id" = none ∧
    FHIRMapper.fhir_to_patient (JSON.obj []) "uuid-a" ≠
      FHIRMapper.fhir_to_patient (JSON.obj []) "uuid-b" := by
  refine ⟨by decide, by decide⟩

/-- Forget the randomly drawn external identifier of a converted patient. -/
def eraseFhirIdP (p : Patient) : Patient := { p with fhir_id := "" }

/-- Forget the randomly drawn external identifier of a converted observation. -/
def eraseFhirIdO (o : Observation) : Observation := { o with fhir_id := "" }

/-- Forget the randomly drawn external identifier of a converted report. -/
def eraseFhirIdR (r : TestReport) : TestReport := { r with fhir_id := "" }

/-- C4 as amended.  Every mapper pair is deterministic up to the UUID4 that
`__init__` draws: the to-FHIR functions are pure functions of the record;
two calls of a from-FHIR function on equal resource dicts (with equal
auxiliary id arguments) return records equal in all fields except possibly
`fhir_id`, and equal in `fhir_id` too whenever the resource carries an
`"id"` key (which overwrites the fresh UUID). -/
theorem C4_determinism :
    (∀ p : Patient, FHIRMapper.patient_to_fhir p = FHIRMapper.patient_to_fhir p) ∧
    (∀ (o : Observation) (bm : Biomarker) (pf : String),
      FHIRMapper.observation_to_fhir o bm pf = FHIRMapper.observation_to_fhir o bm pf) ∧
    (∀ (r : TestReport) (issued : PyDateTime) (pf : String),
      FHIRMapper.report_to_fhir r issued pf = FHIRMapper.report_to_fhir r issued pf) ∧
    (∀ (fp : JSON) (u₁ u₂ : String),
      (FHIRMapper.fhir_to_patient fp u₁).map eraseFhirIdP =
        (FHIRMapper.fhir_to_patient fp u₂).map eraseFhirIdP ∧
      ((JSON.lookup fp "id").isSome = true →
        FHIRMapper.fhir_to_patient fp u₁ = FHIRMapper.fhir_to_patient fp u₂)) ∧
    (∀ (fo : JSON) (pid rid : Nat) (u₁ u₂ : String),
      (FHIRMapper.fhir_to_observation fo pid rid u₁).map eraseFhirIdO =
        (FHIRMapper.fhir_to_observation fo pid rid u₂).map eraseFhirIdO ∧
      ((JSON.lookup fo "id").isSome = true →
        FHIRMapper.fhir_to_observation fo pid rid u₁ =
          FHIRMapper.fhir_to_observation fo pid rid u₂)) ∧
    (∀ (fr : JSON) (pid : Nat) (u₁ u₂ : String),
      (FHIRMapper.fhir_to_report fr pid u₁).map eraseFhirIdR =
        (FHIRMapper.fhir_to_report fr pid u₂).map eraseFhirIdR ∧
      ((JSON.lookup fr "id").isSome = true →
        FHIRMapper.fhir_to_report fr pid u₁ = FHIRMapper.fhir_to_report fr pid u₂)) := by
  refine ⟨fun p => rfl, fun o bm pf => rfl, fun r issued pf => rfl, ?_, ?_, ?_⟩
  · intro fp u₁ u₂
    cases hid : JSON.lookup fp "id" with
    | some v =>
        have heq : FHIRMapper.fhir_to_patient fp u₁ = FHIRMapper.fhir_to_patient fp u₂ := by
          simp only [FHIRMapper.fhir_to_patient, FHIRMapper.fhirIdOf, hid]
        exact ⟨by rw [heq], fun _ => heq⟩
    | none =>
        refine ⟨?_, fun hc => by simp [hid] at hc⟩
        simp only [FHIRMapper.fhir_to_patient, FHIRMapper.fhirIdOf, hid, optMap_bind]
        repeat' refine optBind_congr _ _ _ (fun a => ?_)
        simp [eraseFhirIdP]
  · intro fo pid rid u₁ u₂
    cases hid : JSON.lookup fo "id" with
    | some v =>
        have heq : FHIRMapper.fhir_to_observation fo pid rid u₁ =
            FHIRMapper.fhir_to_observation fo pid rid u₂ := by
          simp only [FHIRMapper.fhir_to_observation, FHIRMapper.obsCore2,
            FHIRMapper.fhirIdOf, hid]
        exact ⟨by rw [heq], fun _ => heq⟩
    | none =>
        refine ⟨?_, fun hc => by simp [hid] at hc⟩
        simp only [FHIRMapper.fhir_to_observation, FHIRMapper.obsCore2,
          FHIRMapper.fhirIdOf, hid, optMap_bind, optBind_assoc, Option.some_bind]
        repeat'
          first
          | refine optBind_congr _ _ _ (fun a => ?_)
          | refine optBind_congr2 _ _ _ (fun a => ?_)
        simp only [optBindM_assoc, optBind_assoc, Option.pure_def, Option.some_bind,
          Option.map_some']
        repeat'
          first
          | refine optBind_congr _ _ _ (fun b => ?_)
          | refine optBind_congr2 _ _ _ (fun b => ?_)
        rfl
  · intro fr pid u₁ u₂
    cases hid : JSON.lookup fr "id" with
    | some v =>
        have heq : FHIRMapper.fhir_to_report fr pid u₁ =
            FHIRMapper.fhir_to_report fr pid u₂ := by
          simp only [FHIRMapper.fhir_to_report, FHIRMapper.fhirIdOf, hid]
        exact ⟨by rw [heq], fun _ => heq⟩
    | none =>
        refine ⟨?_, fun hc => by simp [hid] at hc⟩
        simp only [FHIRMapper.fhir_to_report, FHIRMapper.fhirIdOf, hid, optMap_bind]
        repeat' refine optBind_congr _ _ _ (fun a => ?_)
        simp [eraseFhirIdR]

/-- Witness for the amended C4 at concrete resources carrying an `id`. -/
theorem C4_determinism_witness :
    ((FHIRMapper.fhir_to_patient (JSON.obj [("id", JSON.str "x")]) "a").map eraseFhirIdP =
      (FHIRMapper.fhir_to_patient (JSON.obj [("id", JSON.str "x")]) "b").map eraseFhirIdP) ∧
    FHIRMapper.fhir_to_patient (JSON.obj [("id", JSON.str "x")]) "a" =
      FHIRMapper.fhir_to_patient (JSON.obj [("id", JSON.str "x")]) "b" :=
  ⟨(C4_determinism.2.2.2.1 (JSON.obj [("id", JSON.str "x")]) "a" "b").1,
   (C4_determinism.2.2.2.1 (JSON.obj [("id", JSON.str "x")]) "a" "b").2 (by decide)⟩

theorem isoformat_ne_empty (d : PyDateTime) : d.isoformat ≠ "" := by
  intro h
  have h2 := congrArg String.data h
  simp [PyDateTime.isoformat, PyDateTime.isoChars, pad4, pad2] at h2

/-- Well-formed `Patient` row for the round-trip claim: the name is a
non-empty stripped string, the optional gender is a non-empty lowercase
FHIR code, the optional notes are non-empty, and the birth date is a valid
calendar date. -/
def PatientWF (p : Patient) : Prop :=
  FHIRMapper.pyStrip p.name = p.name ∧ p.name ≠ "" ∧
  (match p.gender with
   | some g => g ≠ "" ∧ pyLower g = g
   | none => True) ∧
  (match p.notes with
   | some n => n ≠ ""
   | none => True) ∧
  (match p.birth_date with
   | some d => d.validb = true
   | none => True)

/-- Well-formed `TestReport` row: valid date, non-empty conclusion code
when present. -/
def ReportWF (r : TestReport) : Prop :=
  r.effective_datetime.validb = true ∧
  (match r.conclusion_code with
   | some cc => cc ≠ ""
   | none => True)

/-- Well-formed `Observation` row: a value is present (the column is
`nullable=False`), the date is valid, and the optional string fields are
non-empty when present. -/
def ObservationWF (o : Observation) : Prop :=
  (∃ v, o.value = some v) ∧
  o.effective_datetime.validb = true ∧
  (match o.unit with
   | some s => s ≠ ""
   | none => True) ∧
  (match o.interpretation with
   | some s => s ≠ ""
   | none => True) ∧
  (match o.notes with
   | some s => s ≠ ""
   | none => True) ∧
  (match o.performer with
   | some s => s ≠ ""
   | none => True) ∧
  (match o.specimen with
   | some s => s ≠ ""
   | none => True) ∧
  (match o.method with
   | some s => s ≠ ""
   | none => True)

theorem patient_roundtrip (p : Patient) (u : String) (hwf : PatientWF p) :
    FHIRMapper.fhir_to_patient (FHIRMapper.patient_to_fhir p) u =
      some { p with id := none } := by
  obtain ⟨pid, nm, bd, g, nts, fid⟩ := p
  obtain ⟨hstrip, hne, hg, hn, hbd⟩ := hwf
  simp only at hstrip hne hg hn hbd
  rcases g with _ | g
  · rcases bd with _ | bd
    · rcases nts with _ | n
      · simp [FHIRMapper.patient_to_fhir, FHIRMapper.fhir_to_patient,
          FHIRMapper.nameCandidate, FHIRMapper.birthDateOf, FHIRMapper.listEntryStr,
          FHIRMapper.fhirIdOf, JSON.removeNoneTop, JSON.lookup, JSON.dictGetD,
          JSON.index0, JSON.truthy, JSON.asStr, JSON.asOptStr, List.filter, List.lookup,
          hstrip, hne]
      · simp [FHIRMapper.patient_to_fhir, FHIRMapper.fhir_to_patient,
          FHIRMapper.nameCandidate, FHIRMapper.birthDateOf, FHIRMapper.listEntryStr,
          FHIRMapper.fhirIdOf, JSON.removeNoneTop, JSON.lookup, JSON.dictGetD,
          JSON.index0, JSON.truthy, JSON.asStr, JSON.asOptStr, List.filter, List.lookup,
          hstrip, hne, hn]
    · rcases nts with _ | n
      · simp [FHIRMapper.patient_to_fhir, FHIRMapper.fhir_to_patient,
          FHIRMapper.nameCandidate, FHIRMapper.birthDateOf, FHIRMapper.listEntryStr,
          FHIRMapper.fhirIdOf, JSON.removeNoneTop, JSON.lookup, JSON.dictGetD,
          JSON.index0, JSON.truthy, JSON.asStr, JSON.asOptStr, List.filter, List.lookup,
          hstrip, hne, isoformat_ne_empty bd, fromisoformat_isoformat bd hbd]
      · simp [FHIRMapper.patient_to_fhir, FHIRMapper.fhir_to_patient,
          FHIRMapper.nameCandidate, FHIRMapper.birthDateOf, FHIRMapper.listEntryStr,
          FHIRMapper.fhirIdOf, JSON.removeNoneTop, JSON.lookup, JSON.dictGetD,
          JSON.index0, JSON.truthy, JSON.asStr, JSON.asOptStr, List.filter, List.lookup,
          hstrip, hne, hn, isoformat_ne_empty bd, fromisoformat_isoformat bd hbd]
  · rcases bd with _ | bd
    · rcases nts with _ | n
      · simp [FHIRMapper.patient_to_fhir, FHIRMapper.fhir_to_patient,
          FHIRMapper.nameCandidate, FHIRMapper.birthDateOf, FHIRMapper.listEntryStr,
          FHIRMapper.fhirIdOf, JSON.removeNoneTop, JSON.lookup, JSON.dictGetD,
          JSON.index0, JSON.truthy, JSON.asStr, JSON.asOptStr, List.filter, List.lookup,
          hstrip, hne, hg.1, hg.2]
      · simp [FHIRMapper.patient_to_fhir, FHIRMapper.fhir_to_patient,
          FHIRMapper.nameCandidate, FHIRMapper.birthDateOf, FHIRMapper.listEntryStr,
          FHIRMapper.fhirIdOf, JSON.removeNoneTop, JSON.lookup, JSON.dictGetD,
          JSON.index0, JSON.truthy, JSON.asStr, JSON.asOptStr, List.filter, List.lookup,
          hstrip, hne, hn, hg.1, hg.2]
    · rcases nts with _ | n
      · simp [FHIRMapper.patient_to_fhir, FHIRMapper.fhir_to_patient,
          FHIRMapper.nameCandidate, FHIRMapper.birthDateOf, FHIRMapper.listEntryStr,
          FHIRMapper.fhirIdOf, JSON.removeNoneTop, JSON.lookup, JSON.dictGetD,
          JSON.index0, JSON.truthy, JSON.asStr, JSON.asOptStr, List.filter, List.lookup,
          hstrip, hne, hg.1, hg.2, isoformat_ne_empty bd, fromisoformat_isoformat bd hbd]
      · simp [FHIRMapper.patient_to_fhir, FHIRMapper.fhir_to_patient,
          FHIRMapper.nameCandidate, FHIRMapper.birthDateOf, FHIRMapper.listEntryStr,
          FHIRMapper.fhirIdOf, JSON.removeNoneTop, JSON.lookup, JSON.dictGetD,
          JSON.index0, JSON.truthy, JSON.asStr, JSON.asOptStr, List.filter, List.lookup,
          hstrip, hne, hn, hg.1, hg.2, isoformat_ne_empty bd, fromisoformat_isoformat bd hbd]

theorem report_roundtrip (r : TestReport) (issued : PyDateTime) (pf u : String)
    (pid : Nat) (hwf : ReportWF r) :
    FHIRMapper.fhir_to_report (FHIRMapper.report_to_fhir r issued pf) pid u =
      some { r with id := none, patient_id := pid } := by
  obtain ⟨rid, rpid, st, cat, edt, con, cc, fid⟩ := r
  obtain ⟨hvalid, hcc⟩ := hwf
  simp only at hvalid hcc
  rcases con with _ | c
  · rcases cc with _ | cc
    · simp [FHIRMapper.report_to_fhir, FHIRMapper.fhir_to_report,
        FHIRMapper.extract_diagnostic_category, FHIRMapper.conclusionCodeOfFhir,
        FHIRMapper.fhirIdOf, JSON.removeNoneTop, JSON.lookup, JSON.dictGetD,
        JSON.index0, JSON.getItem, JSON.truthy, JSON.asStr, JSON.asOptStr,
        List.filter, List.lookup, fromisoformat_isoformat edt hvalid]
    · simp [FHIRMapper.report_to_fhir, FHIRMapper.fhir_to_report,
        FHIRMapper.extract_diagnostic_category, FHIRMapper.conclusionCodeOfFhir,
        FHIRMapper.fhirIdOf, JSON.removeNoneTop, JSON.lookup, JSON.dictGetD,
        JSON.index0, JSON.getItem, JSON.truthy, JSON.asStr, JSON.asOptStr,
        List.filter, List.lookup, hcc, fromisoformat_isoformat edt hvalid]
  · rcases cc with _ | cc
    · simp [FHIRMapper.report_to_fhir, FHIRMapper.fhir_to_report,
        FHIRMapper.extract_diagnostic_category, FHIRMapper.conclusionCodeOfFhir,
        FHIRMapper.fhirIdOf, JSON.removeNoneTop, JSON.lookup, JSON.dictGetD,
        JSON.index0, JSON.getItem, JSON.truthy, JSON.asStr, JSON.asOptStr,
        List.filter, List.lookup, fromisoformat_isoformat edt hvalid]
    · simp [FHIRMapper.report_to_fhir, FHIRMapper.fhir_to_report,
        FHIRMapper.extract_diagnostic_category, FHIRMapper.conclusionCodeOfFhir,
        FHIRMapper.fhirIdOf, JSON.removeNoneTop, JSON.lookup, JSON.dictGetD,
        JSON.index0, JSON.getItem, JSON.truthy, JSON.asStr, JSON.asOptStr,
        List.filter, List.lookup, hcc, fromisoformat_isoformat edt hvalid]

theorem lookup_remNoneKV_cons_ne (key k : String) (v : JSON)
    (rest : List (String × JSON)) (h : ¬ k = key) :
    List.lookup key (JSON.remNoneKV ((k, v) :: rest)) =
      List.lookup key (JSON.remNoneKV rest) := by
  have hb : (key == k) = false := beq_eq_false_iff_ne.mpr (Ne.symm h)
  by_cases hv : v = JSON.null <;>
    simp [JSON.remNoneKV, hv, List.lookup, hb]

theorem lookup_remNoneKV_cons_self (key : String) (v : JSON)
    (rest : List (String × JSON)) (h : ¬ v = JSON.null) :
    List.lookup key (JSON.remNoneKV ((key, v) :: rest)) = some (JSON.remNone v) := by
  simp [JSON.remNoneKV, h, List.lookup]

theorem lookup_remNoneKV_cons_null (key k : String) (rest : List (String × JSON)) :
    List.lookup key (JSON.remNoneKV ((k, JSON.null) :: rest)) =
      List.lookup key (JSON.remNoneKV rest) := by
  simp [JSON.remNoneKV]

theorem obs_status_lookup (o : Observation) (bm : Biomarker) (pf : String) :
    JSON.dictGetD (FHIRMapper.observation_to_fhir o bm pf) "status"
      (JSON.str "unknown") = some (JSON.str o.status) := by
  simp [FHIRMapper.observation_to_fhir, JSON.remNone, JSON.dictGetD,
    lookup_remNoneKV_cons_ne, lookup_remNoneKV_cons_self]

theorem obs_category_lookup (o : Observation) (bm : Biomarker) (pf : String) :
    FHIRMapper.extract_category (FHIRMapper.observation_to_fhir o bm pf) =
      some o.category := by
  simp [FHIRMapper.observation_to_fhir, FHIRMapper.extract_category, JSON.remNone,
    JSON.remNoneList, JSON.remNoneKV, JSON.dictGetD, JSON.index0, JSON.truthy,
    JSON.asStr, lookup_remNoneKV_cons_ne, lookup_remNoneKV_cons_self, List.lookup]

theorem obs_effective_lookup (o : Observation) (bm : Biomarker) (pf : String) :
    JSON.getItem (FHIRMapper.observation_to_fhir o bm pf) "effectiveDateTime" =
      some (JSON.str o.effective_datetime.isoformat) := by
  simp [FHIRMapper.observation_to_fhir, JSON.remNone, JSON.getItem,
    lookup_remNoneKV_cons_ne, lookup_remNoneKV_cons_self]

theorem obs_fhirId_lookup (o : Observation) (bm : Biomarker) (pf u : String) :
    FHIRMapper.fhirIdOf (FHIRMapper.observation_to_fhir o bm pf) u =
      some o.fhir_id := by
  simp [FHIRMapper.observation_to_fhir, FHIRMapper.fhirIdOf, JSON.remNone,
    JSON.lookup, JSON.asStr, lookup_remNoneKV_cons_ne, lookup_remNoneKV_cons_self]

theorem obs_valueUnit_lookup (o : Observation) (bm : Biomarker) (pf : String)
    (v : ℚ) (hv : o.value = some v) :
    FHIRMapper.valueUnitOfFhir (FHIRMapper.observation_to_fhir o bm pf) =
      some (some v, some (FHIRMapper.unitDisplay o.unit bm.unit)) := by
  simp [FHIRMapper.observation_to_fhir, FHIRMapper.valueUnitOfFhir, hv, JSON.remNone,
    JSON.remNoneKV, JSON.dictGetD, JSON.asOptNum, JSON.asOptStr, List.lookup,
    lookup_remNoneKV_cons_ne, lookup_remNoneKV_cons_self]

theorem obs_refRange_lookup (o : Observation) (bm : Biomarker) (pf : String) :
    FHIRMapper.refRangeOfFhir (FHIRMapper.observation_to_fhir o bm pf) =
      some (o.ref_min, o.ref_max) := by
  rcases hmin : o.ref_min with _ | rmin <;> rcases hmax : o.ref_max with _ | rmax <;>
    (simp only [FHIRMapper.observation_to_fhir, JSON.remNone, hmin, hmax]
     simp [FHIRMapper.refRangeOfFhir, JSON.dictGetD,
       lookup_remNoneKV_cons_ne, lookup_remNoneKV_cons_self]
     simp [JSON.remNone, JSON.remNoneList, JSON.remNoneKV, JSON.index0,
       JSON.truthy, JSON.asOptNum, List.lookup])

theorem obs_interpretation_lookup (o : Observation) (bm : Biomarker) (pf : String)
    (hwf : match o.interpretation with
           | some s => s ≠ ""
           | none => True) :
    FHIRMapper.interpretationOfFhir (FHIRMapper.observation_to_fhir o bm pf) =
      some o.interpretation := by
  rcases hi : o.interpretation with _ | i <;> rw [hi] at hwf <;>
    (simp only [FHIRMapper.observation_to_fhir, JSON.remNone, hi]
     simp [FHIRMapper.interpretationOfFhir, JSON.dictGetD,
       lookup_remNoneKV_cons_ne, lookup_remNoneKV_cons_self, hwf]
     simp [JSON.remNone, JSON.remNoneList, JSON.remNoneKV, JSON.index0,
       JSON.truthy, JSON.asOptStr, JSON.dictGetD, List.lookup, hwf])

theorem obs_loinc_lookup (o : Observation) (bm : Biomarker) (pf : String) :
    ∃ lo, FHIRMapper.loincOfFhir (FHIRMapper.observation_to_fhir o bm pf) = some lo := by
  rcases hl : bm.loinc with _ | l
  · refine ⟨none, ?_⟩
    simp only [FHIRMapper.observation_to_fhir, JSON.remNone, hl]
    simp [FHIRMapper.loincOfFhir, JSON.dictGetD,
      lookup_remNoneKV_cons_ne, lookup_remNoneKV_cons_self]
    simp [JSON.remNone, JSON.remNoneList, JSON.remNoneKV, FHIRMapper.scanLoinc,
      List.lookup]
  · by_cases hs : l.system = "http://loinc.org"
    · refine ⟨some (JSON.str l.code), ?_⟩
      simp only [FHIRMapper.observation_to_fhir, JSON.remNone, hl]
      simp [FHIRMapper.loincOfFhir, JSON.dictGetD,
        lookup_remNoneKV_cons_ne, lookup_remNoneKV_cons_self]
      simp [JSON.remNone, JSON.remNoneList, JSON.remNoneKV, FHIRMapper.scanLoinc,
        List.lookup, hs]
    · refine ⟨none, ?_⟩
      simp only [FHIRMapper.observation_to_fhir, JSON.remNone, hl]
      simp [FHIRMapper.loincOfFhir, JSON.dictGetD,
        lookup_remNoneKV_cons_ne, lookup_remNoneKV_cons_self]
      simp [JSON.remNone, JSON.remNoneList, JSON.remNoneKV, FHIRMapper.scanLoinc,
        List.lookup, hs]

theorem obs_note_lookup (o : Observation) (bm : Biomarker) (pf : String)
    (hwf : match o.notes with
           | some s => s ≠ ""
           | none => True) :
    FHIRMapper.listEntryStr (FHIRMapper.observation_to_fhir o bm pf) "note" "text" =
      some o.notes := by
  rcases hn : o.notes with _ | n <;> rw [hn] at hwf <;>
    (simp only [FHIRMapper.observation_to_fhir, JSON.remNone, hn]
     simp [FHIRMapper.listEntryStr, JSON.dictGetD,
       lookup_remNoneKV_cons_ne, lookup_remNoneKV_cons_self, hwf]
     simp [JSON.remNone, JSON.remNoneList, JSON.remNoneKV, JSON.index0,
       JSON.truthy, JSON.asOptStr, JSON.dictGetD, List.lookup, hwf])

theorem obs_performer_lookup (o : Observation) (bm : Biomarker) (pf : String)
    (hwf : match o.performer with
           | some s => s ≠ ""
           | none => True) :
    FHIRMapper.listEntryStr (FHIRMapper.observation_to_fhir o bm pf)
      "performer" "display" = some o.performer := by
  rcases hp : o.performer with _ | p <;> rw [hp] at hwf <;>
    (simp only [FHIRMapper.observation_to_fhir, JSON.remNone, hp]
     simp [FHIRMapper.listEntryStr, JSON.dictGetD,
       lookup_remNoneKV_cons_ne, lookup_remNoneKV_cons_self, hwf]
     simp [JSON.remNone, JSON.remNoneList, JSON.remNoneKV, JSON.index0,
       JSON.truthy, JSON.asOptStr, JSON.dictGetD, List.lookup, hwf])

theorem obs_specimen_lookup (o : Observation) (bm : Biomarker) (pf : String)
    (hwf : match o.specimen with
           | some s => s ≠ ""
           | none => True) :
    FHIRMapper.dictEntryStr (FHIRMapper.observation_to_fhir o bm pf)
      "specimen" "display" = some o.specimen := by
  rcases hs : o.specimen with _ | sp <;> rw [hs] at hwf <;>
    (simp only [FHIRMapper.observation_to_fhir, JSON.remNone, hs]
     simp [FHIRMapper.dictEntryStr, JSON.dictGetD, lookup_remNoneKV_cons_ne,
       lookup_remNoneKV_cons_self, lookup_remNoneKV_cons_null, hwf]
     simp [JSON.remNone, JSON.remNoneList, JSON.remNoneKV, JSON.truthy,
       JSON.asOptStr, JSON.dictGetD, List.lookup, hwf])

theorem obs_method_lookup (o : Observation) (bm : Biomarker) (pf : String)
    (hwf : match o.method with
           | some s => s ≠ ""
           | none => True) :
    FHIRMapper.dictEntryStr (FHIRMapper.observation_to_fhir o bm pf)
      "method" "text" = some o.method := by
  rcases hm : o.method with _ | me <;> rw [hm] at hwf <;>
    (simp only [FHIRMapper.observation_to_fhir, JSON.remNone, hm]
     simp [FHIRMapper.dictEntryStr, JSON.dictGetD, lookup_remNoneKV_cons_ne,
       lookup_remNoneKV_cons_self, lookup_remNoneKV_cons_null, hwf]
     simp [JSON.remNone, JSON.remNoneList, JSON.remNoneKV, JSON.truthy,
       JSON.asOptStr, JSON.dictGetD, List.lookup, hwf])

theorem optSome_bind {α β : Type} (a : α) (f : α → Option β) :
    (some a : Option α) >>= f = f a := rfl

theorem obsCore1_roundtrip (o : Observation) (bm : Biomarker) (pf : String)
    (v : ℚ) (hv : o.value = some v)
    (hvalid : o.effective_datetime.validb = true)
    (hi : match o.interpretation with
          | some s => s ≠ ""
          | none => True) :
    FHIRMapper.obsCore1 (FHIRMapper.observation_to_fhir o bm pf) =
      some ((some v, some (FHIRMapper.unitDisplay o.unit bm.unit)),
        (o.ref_min, o.ref_max), o.interpretation, o.effective_datetime) := by
  obtain ⟨lo, hlo⟩ := obs_loinc_lookup o bm pf
  simp only [FHIRMapper.obsCore1, obs_valueUnit_lookup o bm pf v hv,
    obs_refRange_lookup, obs_interpretation_lookup o bm pf hi, hlo,
    obs_effective_lookup, optSome_bind, JSON.asStr,
    fromisoformat_isoformat o.effective_datetime hvalid, Option.pure_def]

theorem obsCore2_roundtrip (o : Observation) (bm : Biomarker) (pf u : String)
    (hn : match o.notes with
          | some s => s ≠ ""
          | none => True)
    (hp : match o.performer with
          | some s => s ≠ ""
          | none => True)
    (hsp : match o.specimen with
           | some s => s ≠ ""
           | none => True)
    (hm : match o.method with
          | some s => s ≠ ""
          | none => True) :
    FHIRMapper.obsCore2 (FHIRMapper.observation_to_fhir o bm pf) u =
      some (o.status, o.category, o.notes, o.performer, o.specimen, o.method,
        o.fhir_id) := by
  simp only [FHIRMapper.obsCore2, obs_status_lookup, obs_category_lookup,
    obs_note_lookup o bm pf hn, obs_performer_lookup o bm pf hp,
    obs_specimen_lookup o bm pf hsp, obs_method_lookup o bm pf hm,
    obs_fhirId_lookup, optSome_bind, JSON.asStr, Option.pure_def]

theorem observation_roundtrip (o : Observation) (bm : Biomarker) (pf u : String)
    (pid rid : Nat) (hwf : ObservationWF o) :
    FHIRMapper.fhir_to_observation (FHIRMapper.observation_to_fhir o bm pf) pid rid u =
      some { o with
             id := none, patient_id := pid, report_id := rid,
             biomarker_id := 1,
             unit := some (FHIRMapper.unitDisplay o.unit bm.unit) } := by
  obtain ⟨⟨v, hv⟩, hvalid, hu, hi, hn, hp, hsp, hm⟩ := hwf
  simp only [FHIRMapper.fhir_to_observation,
    obsCore1_roundtrip o bm pf v hv hvalid hi,
    obsCore2_roundtrip o bm pf u hn hp hsp hm, optSome_bind, Option.pure_def,
    Option.some.injEq]
  rw [hv]

/-- A well-formed observation row attached to biomarker 2. -/
def bioObs : Observation :=
  { patient_id := 1, report_id := 1, biomarker_id := 2, status := "final",
    category := "laboratory", effective_datetime := ⟨2024, 1, 2, 3, 4, 5⟩,
    value := some 5, unit := some "mg/dL", ref_min := none, ref_max := none,
    interpretation := none, notes := none, performer := none, specimen := none,
    method := none, fhir_id := "ob-1" }

/-- The biomarker record 2 of `bioObs`. -/
def bioBm : Biomarker := { id := 2, name := "Glucose", loinc := none, unit := none }

/-- C1, counterexample to the claim as stated: the biomarker association is
not preserved by the round trip — `fhir_to_observation` always installs the
placeholder `biomarker_id = 1`, so an observation of biomarker 2 comes back
attached to biomarker 1. -/
theorem C1_counterexample :
    bioObs.biomarker_id = 2 ∧
    FHIRMapper.fhir_to_observation
        (FHIRMapper.observation_to_fhir bioObs bioBm "pf") 1 1 "u" =
      some { bioObs with biomarker_id := 1 } := by
  refine ⟨by decide, by decide⟩

/-- C1 as amended.  For well-formed records, converting to FHIR JSON and
back preserves every listed non-null semantic field except the
Observation's biomarker association, which is replaced by the placeholder
biomarker id 1: a Patient keeps name, gender, birth date, notes and
fhir_id; an Observation keeps status, category, value, unit (the
biomarker's default unit is substituted only when the record has none),
reference range, interpretation, notes, performer, specimen, method,
effective datetime and fhir_id; a TestReport keeps status, category,
effective datetime, conclusion, conclusion code and fhir_id. -/
theorem C1_fhir_roundtrip :
    (∀ (p : Patient) (u : String), PatientWF p →
      FHIRMapper.fhir_to_patient (FHIRMapper.patient_to_fhir p) u =
        some { p with id := none }) ∧
    (∀ (o : Observation) (bm : Biomarker) (pf u : String) (pid rid : Nat),
      ObservationWF o →
      FHIRMapper.fhir_to_observation (FHIRMapper.observation_to_fhir o bm pf)
          pid rid u =
        some { o with
               id := none, patient_id := pid, report_id := rid,
               biomarker_id := 1,
               unit := some (FHIRMapper.unitDisplay o.unit bm.unit) }) ∧
    (∀ (ou : String) (ui : Option UCUMUnit), ou ≠ "" →
      FHIRMapper.unitDisplay (some ou) ui = ou) ∧
    (∀ (r : TestReport) (issued : PyDateTime) (pf u : String) (pid : Nat),
      ReportWF r →
      FHIRMapper.fhir_to_report (FHIRMapper.report_to_fhir r issued pf) pid u =
        some { r with id := none, patient_id := pid }) := by
  refine ⟨fun p u h => patient_roundtrip p u h,
    fun o bm pf u pid rid h => observation_roundtrip o bm pf u pid rid h,
    fun ou ui h => by simp [FHIRMapper.unitDisplay, h],
    fun r issued pf u pid h => report_roundtrip r issued pf u pid h⟩

/-- Witness for the amended C1 at concrete well-formed records. -/
theorem C1_fhir_roundtrip_witness :
    FHIRMapper.fhir_to_patient
        (FHIRMapper.patient_to_fhir
          { id := some 3, name := "Alice Smith",
            birth_date := some ⟨1990, 5, 17, 0, 0, 0⟩, gender := some "female",
            notes := some "hi", fhir_id := "u-1" }) "fresh" =
      some { name := "Alice Smith", birth_date := some ⟨1990, 5, 17, 0, 0, 0⟩,
             gender := some "female", notes := some "hi", fhir_id := "u-1" } ∧
    FHIRMapper.fhir_to_observation
        (FHIRMapper.observation_to_fhir bioObs bioBm "pf") 7 8 "fresh" =
      some { bioObs with patient_id := 7, report_id := 8, biomarker_id := 1 } ∧
    FHIRMapper.fhir_to_report
        (FHIRMapper.report_to_fhir
          { id := some 4, patient_id := 3, status := "final",
            category := "laboratory", effective_datetime := ⟨2024, 1, 2, 3, 4, 5⟩,
            conclusion := some "fine", conclusion_code := some "123",
            fhir_id := "rep-1" } ⟨2024, 1, 3, 0, 0, 0⟩ "u-1") 9 "fresh" =
      some { patient_id := 9, status := "final", category := "laboratory",
             effective_datetime := ⟨2024, 1, 2, 3, 4, 5⟩, conclusion := some "fine",
             conclusion_code := some "123", fhir_id := "rep-1" } := by
  refine ⟨?_, ?_, ?_⟩
  · exact C1_fhir_roundtrip.1 _ "fresh" (by constructor <;> decide)
  · have h := C1_fhir_roundtrip.2.1 bioObs bioBm "pf" "fresh" 7 8
      (by refine ⟨⟨5, rfl⟩, ?_, ?_, ?_, ?_, ?_, ?_, ?_⟩ <;>
        first
        | decide
        | simp [bioObs])
    rw [h]
    decide
  · exact C1_fhir_roundtrip.2.2.2 _ ⟨2024, 1, 3, 0, 0, 0⟩ "u-1" "fresh" 9
      (by constructor <;> decide)

/-- C8.  Patient creation is capped at `MAX_PATIENT_PROFILES = 4`: with at
least 4 stored patient rows, both `POST /api/v1/patients` and
`POST /fhir/Patient` return 400 with the cap error message and leave the
state unchanged; below the cap, creation proceeds and appends exactly one
patient row (for the FHIR route, whenever the resource converts). -/
theorem C8_patient_cap :
    (∀ (db : DB) (data : PatientCreate) (uuid : String),
      db.patients.length ≥ Config.MAX_PATIENT_PROFILES →
      (RestAPI.create_patient db data uuid).status = 400 ∧
      (RestAPI.create_patient db data uuid).db = db ∧
      (RestAPI.create_patient db data uuid).body =
        JSON.obj [("error",
          JSON.str "Maximum number of patient profiles (4) reached")]) ∧
    (∀ (db : DB) (resource : JSON) (uuid : String),
      db.patients.length ≥ Config.MAX_PATIENT_PROFILES →
      (FhirAPI.create_patient db resource uuid).status = 400 ∧
      (FhirAPI.create_patient db resource uuid).db = db ∧
      (FhirAPI.create_patient db resource uuid).body =
        JSON.obj [("error",
          JSON.str "Maximum number of patient profiles (4) reached")]) ∧
    (∀ (db : DB) (data : PatientCreate) (uuid : String),
      db.patients.length < Config.MAX_PATIENT_PROFILES →
      (RestAPI.create_patient db data uuid).status = 201 ∧
      (RestAPI.create_patient db data uuid).db.patients =
        db.patients ++ [⟨db.next_patient_id,
          { name := data.name, birth_date := data.birth_date,
            gender := data.gender, notes := data.notes, fhir_id := uuid }⟩]) ∧
    (∀ (db : DB) (resource : JSON) (uuid : String) (p : Patient),
      db.patients.length < Config.MAX_PATIENT_PROFILES →
      FHIRMapper.fhir_to_patient resource uuid = some p →
      (FhirAPI.create_patient db resource uuid).status = 201 ∧
      (FhirAPI.create_patient db resource uuid).db.patients =
        db.patients ++ [⟨db.next_patient_id, p⟩]) := by
  refine ⟨fun db data uuid h => ?_, fun db resource uuid h => ?_,
    fun db data uuid h => ?_, fun db resource uuid p h hp => ?_⟩
  · simp [RestAPI.create_patient, h]
  · simp [FhirAPI.create_patient, h]
  · simp [RestAPI.create_patient, Nat.not_le.mpr h]
  · simp [FhirAPI.create_patient, Nat.not_le.mpr h, hp]

/-- A full database: four patient profiles already stored. -/
def dbFull : DB :=
  { patients := [⟨1, { name := "A", fhir_id := "a" }⟩,
      ⟨2, { name := "B", fhir_id := "b" }⟩,
      ⟨3, { name := "C", fhir_id := "c" }⟩,
      ⟨4, { name := "D", fhir_id := "d" }⟩],
    reports := [], observations := [], documents := [], biomarkers := [],
    next_patient_id := 5, next_report_id := 1, next_observation_id := 1,
    next_document_id := 1 }

/-- Witness for C8: the cap rejects the fifth profile and admits a profile
into a database with a single patient. -/
theorem C8_patient_cap_witness :
    ((RestAPI.create_patient dbFull ⟨"E", none, none, none⟩ "e").status = 400 ∧
      (RestAPI.create_patient dbFull ⟨"E", none, none, none⟩ "e").db = dbFull) ∧
    (FhirAPI.create_patient dbFull (JSON.obj []) "e").status = 400 ∧
    (RestAPI.create_patient (DB.init []) ⟨"E", none, none, none⟩ "e").status = 201 := by
  refine ⟨⟨(C8_patient_cap.1 dbFull _ "e" (by decide)).1,
    (C8_patient_cap.1 dbFull _ "e" (by decide)).2.1⟩,
    (C8_patient_cap.2.1 dbFull (JSON.obj []) "e" (by decide)).1,
    (C8_patient_cap.2.2.1 (DB.init []) _ "e" (by decide)).1⟩

/-- `fhir_to_observation` installs its auxiliary `patient_id` and
`report_id` arguments verbatim in the record it returns. -/
theorem fhir_to_observation_ids {fo : JSON} {pid rid : Nat} {u : String}
    {o : Observation} (h : FHIRMapper.fhir_to_observation fo pid rid u = some o) :
    o.patient_id = pid ∧ o.report_id = rid := by
  simp only [FHIRMapper.fhir_to_observation, optBind_eq_some, Option.pure_def,
    Option.some.injEq] at h
  obtain ⟨c1, hc1, c2, hc2, ho⟩ := h
  simp only [FHIRMapper.obsCore1, optBind_eq_some, Option.pure_def,
    Option.some.injEq] at hc1
  obtain ⟨vu, hvu, rr, hrr, itp, hitp, lo, hlo, edt, hedt, es, hes, eff, heff, hc1e⟩ := hc1
  simp only [FHIRMapper.obsCore2, optBind_eq_some, Option.pure_def,
    Option.some.injEq] at hc2
  obtain ⟨sj, hsj, st, hst, cat, hcat, nts, hnts, prf, hprf, spc, hspc, mth, hmth,
    fid, hfid, hc2e⟩ := hc2
  subst hc1e
  subst hc2e
  rw [← ho]
  exact ⟨rfl, rfl⟩

/-- `fhir_to_report` installs its auxiliary `patient_id` argument verbatim. -/
theorem fhir_to_report_pid {fr : JSON} {pid : Nat} {u : String} {r : TestReport}
    (h : FHIRMapper.fhir_to_report fr pid u = some r) : r.patient_id = pid := by
  simp only [FHIRMapper.fhir_to_report, optBind_eq_some, Option.pure_def,
    Option.some.injEq] at h
  obtain ⟨edt, hedt, es, hes, eff, heff, sj, hsj, st, hst, cat, hcat,
    con, hcon, cc, hcc, ccode, hccode, fid, hfid, ho⟩ := h
  rw [← ho]

theorem findPatient_spec {db : DB} {pid : Nat} {row : PatientRow}
    (h : db.findPatient pid = some row) : row ∈ db.patients ∧ row.id = pid := by
  unfold DB.findPatient at h
  exact ⟨List.mem_of_find?_eq_some h, by simpa using List.find?_some h⟩

theorem findPatientByFhirId_mem {db : DB} {fid : String} {row : PatientRow}
    (h : db.findPatientByFhirId fid = some row) : row ∈ db.patients := by
  unfold DB.findPatientByFhirId at h
  exact List.mem_of_find?_eq_some h

theorem findReportByFhirId_mem {db : DB} {fid : String} {row : ReportRow}
    (h : db.findReportByFhirId fid = some row) : row ∈ db.reports := by
  unfold DB.findReportByFhirId at h
  exact List.mem_of_find?_eq_some h

/-- A patient-table update of the shape every modelled update route uses
(replace the matching row's model, keep its primary key) preserves the
set of present row ids. -/
theorem pat_map_ids (l : List PatientRow) (t x : Nat) (g : PatientRow → Patient)
    (h : ∃ p ∈ l, p.id = x) :
    ∃ p ∈ l.map (fun p => if p.id = t then (⟨p.id, g p⟩ : PatientRow) else p),
      p.id = x := by
  obtain ⟨p, hp, he⟩ := h
  refine ⟨(fun p => if p.id = t then (⟨p.id, g p⟩ : PatientRow) else p) p,
    List.mem_map_of_mem _ hp, ?_⟩
  by_cases hc : p.id = t
  · simpa only [if_pos hc] using he
  · simpa only [if_neg hc] using he

/-- An observation-table update preserves any property of the stored
`patient_id`s, provided the replacement's `patient_id` has it too. -/
theorem obs_map_ok (l : List ObservationRow) (t : Nat)
    (g : ObservationRow → Observation) (P : Nat → Prop)
    (hg : ∀ o ∈ l, P (g o).patient_id) (h : ∀ o ∈ l, P o.m.patient_id) :
    ∀ o ∈ l.map (fun o => if o.id = t then (⟨o.id, g o⟩ : ObservationRow) else o),
      P o.m.patient_id := by
  intro o ho
  obtain ⟨a, ha, rfl⟩ := List.mem_map.mp ho
  by_cases hc : a.id = t
  · simpa [hc] using hg a ha
  · simpa [hc] using h a ha

/-- A report-table update preserves any property of the stored
`patient_id`s, provided the replacement's `patient_id` has it too. -/
theorem rep_map_ok (l : List ReportRow) (t : Nat)
    (g : ReportRow → TestReport) (P : Nat → Prop)
    (hg : ∀ r ∈ l, P (g r).patient_id) (h : ∀ r ∈ l, P r.m.patient_id) :
    ∀ r ∈ l.map (fun r => if r.id = t then (⟨r.id, g r⟩ : ReportRow) else r),
      P r.m.patient_id := by
  intro r hr
  obtain ⟨a, ha, rfl⟩ := List.mem_map.mp hr
  by_cases hc : a.id = t
  · simpa [hc] using hg a ha
  · simpa [hc] using h a ha

/-- Every modelled request preserves the two patient-reference links:
observations reference existing patients and reports reference existing
patients. -/
theorem step_preserves_patient_links {db db' : DB} (s : Step db db')
    (h1 : obsPatientsOK db) (h2 : reportsPatientsOK db) :
    obsPatientsOK db' ∧ reportsPatientsOK db' := by
  cases s with
  | rest_create_patient data uuid =>
      unfold RestAPI.create_patient
      split
      · exact ⟨h1, h2⟩
      · constructor
        · intro o ho
          obtain ⟨p, hp, he⟩ := h1 o ho
          exact ⟨p, List.mem_append_left _ hp, he⟩
        · intro r hr
          obtain ⟨p, hp, he⟩ := h2 r hr
          exact ⟨p, List.mem_append_left _ hp, he⟩
  | rest_update_patient pid name bd g n =>
      unfold RestAPI.update_patient
      split
      · constructor
        · intro o ho
          exact pat_map_ids _ _ _ _ (h1 o ho)
        · intro r hr
          exact pat_map_ids _ _ _ _ (h2 r hr)
      · exact ⟨h1, h2⟩
  | rest_delete_patient pid =>
      unfold RestAPI.delete_patient RestAPI.delete_patient_related_records
      split
      · constructor
        · intro o ho
          obtain ⟨ho1, ho2⟩ := List.mem_filter.mp ho
          have hne : ¬ o.m.patient_id = pid := by simpa using ho2
          obtain ⟨p, hp, he⟩ := h1 o ho1
          exact ⟨p, List.mem_filter.mpr ⟨hp, by simp [he, hne]⟩, he⟩
        · intro r hr
          obtain ⟨hr1, hr2⟩ := List.mem_filter.mp hr
          have hne : ¬ r.m.patient_id = pid := by simpa using hr2
          obtain ⟨p, hp, he⟩ := h2 r hr1
          exact ⟨p, List.mem_filter.mpr ⟨hp, by simp [he, hne]⟩, he⟩
      · exact ⟨h1, h2⟩
  | rest_create_report data uuid =>
      unfold RestAPI.create_report
      split
      · exact ⟨h1, h2⟩
      · rename_i prow hfind
        obtain ⟨hmem, hid⟩ := findPatient_spec hfind
        constructor
        · exact fun o ho => h1 o ho
        · intro r hr
          rcases List.mem_append.mp hr with h | h
          · exact h2 r h
          · obtain rfl := List.mem_singleton.mp h
            exact ⟨prow, hmem, hid⟩
  | rest_update_report rid st c cc =>
      unfold RestAPI.update_report
      split
      · constructor
        · exact fun o ho => h1 o ho
        · intro r hr
          exact rep_map_ok db.reports _
            (fun a => { a.m with
              status := st, conclusion := c, conclusion_code := cc })
            (fun x => ∃ q ∈ db.patients, q.id = x)
            (fun a ha => h2 a ha) (fun a ha => h2 a ha) r hr
      · exact ⟨h1, h2⟩
  | rest_delete_report rid =>
      unfold RestAPI.delete_report
      split
      · exact ⟨fun o ho => h1 o (List.mem_of_mem_filter ho),
          fun r hr => h2 r (List.mem_of_mem_filter hr)⟩
      · exact ⟨h1, h2⟩
  | rest_create_observation data uuid =>
      unfold RestAPI.create_observation
      split
      · exact ⟨h1, h2⟩
      · rename_i prow hfindp
        split
        · exact ⟨h1, h2⟩
        · split
          · constructor
            · intro o ho
              rcases List.mem_append.mp ho with h | h
              · exact h1 o h
              · obtain rfl := List.mem_singleton.mp h
                obtain ⟨hmem, hid⟩ := findPatient_spec hfindp
                exact ⟨prow, hmem, hid⟩
            · exact fun r hr => h2 r hr
          · exact ⟨h1, h2⟩
  | rest_update_observation oid v st u rmin rmax i n p sp me =>
      unfold RestAPI.update_observation
      split
      · constructor
        · intro o ho
          exact obs_map_ok db.observations _
            (fun a => { a.m with
              value := v, status := st, unit := u, ref_min := rmin,
              ref_max := rmax, interpretation := i, notes := n,
              performer := p, specimen := sp, method := me })
            (fun x => ∃ q ∈ db.patients, q.id = x)
            (fun a ha => h1 a ha) (fun a ha => h1 a ha) o ho
        · exact fun r hr => h2 r hr
      · exact ⟨h1, h2⟩
  | rest_delete_observation oid =>
      unfold RestAPI.delete_observation
      split
      · exact ⟨fun o ho => h1 o (List.mem_of_mem_filter ho),
          fun r hr => h2 r hr⟩
      · exact ⟨h1, h2⟩
  | rest_upload_document data uuid =>
      cases hfp : db.findPatient data.patient_id with
      | none => simp only [RestAPI.upload_document, hfp]; exact ⟨h1, h2⟩
      | some prow =>
          by_cases ht : optNatTruthy data.report_id
          · cases hfr : db.findReport (data.report_id.getD 0) with
            | none =>
                simp only [RestAPI.upload_document, hfp, ht, if_pos, hfr]
                exact ⟨h1, h2⟩
            | some rrow =>
                simp only [RestAPI.upload_document, hfp, ht, if_pos, hfr]
                exact ⟨fun o ho => h1 o ho, fun r hr => h2 r hr⟩
          · simp only [RestAPI.upload_document, hfp, ht, if_neg]
            exact ⟨fun o ho => h1 o ho, fun r hr => h2 r hr⟩
  | rest_delete_document did =>
      unfold RestAPI.delete_document
      split
      · exact ⟨fun o ho => h1 o ho, fun r hr => h2 r hr⟩
      · exact ⟨h1, h2⟩
  | fhir_create_patient resource uuid =>
      unfold FhirAPI.create_patient
      split
      · exact ⟨h1, h2⟩
      · split
        · constructor
          · intro o ho
            obtain ⟨p, hp, he⟩ := h1 o ho
            exact ⟨p, List.mem_append_left _ hp, he⟩
          · intro r hr
            obtain ⟨p, hp, he⟩ := h2 r hr
            exact ⟨p, List.mem_append_left _ hp, he⟩
        · exact ⟨h1, h2⟩
  | fhir_update_patient fid resource uuid =>
      unfold FhirAPI.update_patient
      split
      · exact ⟨h1, h2⟩
      · split
        · constructor
          · intro o ho
            exact pat_map_ids _ _ _ _ (h1 o ho)
          · intro r hr
            exact pat_map_ids _ _ _ _ (h2 r hr)
        · exact ⟨h1, h2⟩
  | fhir_patch_patient fid name bd g n =>
      unfold FhirAPI.patch_patient
      split
      · exact ⟨h1, h2⟩
      · constructor
        · intro o ho
          exact pat_map_ids _ _ _ _ (h1 o ho)
        · intro r hr
          exact pat_map_ids _ _ _ _ (h2 r hr)
  | fhir_delete_patient fid =>
      unfold FhirAPI.delete_patient
      split
      · exact ⟨h1, h2⟩
      · rename_i row hrow
        constructor
        · intro o ho
          obtain ⟨ho1, ho2⟩ := List.mem_filter.mp ho
          have hne : ¬ o.m.patient_id = row.id := by simpa using ho2
          obtain ⟨p, hp, he⟩ := h1 o ho1
          exact ⟨p, List.mem_filter.mpr ⟨hp, by simp [he, hne]⟩, he⟩
        · intro r hr
          obtain ⟨hr1, hr2⟩ := List.mem_filter.mp hr
          have hne : ¬ r.m.patient_id = row.id := by simpa using hr2
          obtain ⟨p, hp, he⟩ := h2 r hr1
          exact ⟨p, List.mem_filter.mpr ⟨hp, by simp [he, hne]⟩, he⟩
  | fhir_create_observation resource uuid =>
      unfold FhirAPI.create_observation
      split
      · exact ⟨h1, h2⟩
      · split
        · exact ⟨h1, h2⟩
        · split
          · exact ⟨h1, h2⟩
          · rename_i patient hpat
            split
            · rename_i obs hobs
              split
              · constructor
                · intro o ho
                  rcases List.mem_append.mp ho with h | h
                  · exact h1 o h
                  · obtain rfl := List.mem_singleton.mp h
                    exact ⟨patient, findPatientByFhirId_mem hpat,
                      (fhir_to_observation_ids hobs).1.symm⟩
                · exact fun r hr => h2 r hr
              · exact ⟨h1, h2⟩
            · exact ⟨h1, h2⟩
  | fhir_update_observation fid resource uuid =>
      unfold FhirAPI.update_observation
      split
      · exact ⟨h1, h2⟩
      · split
        · exact ⟨h1, h2⟩
        · split
          · exact ⟨h1, h2⟩
          · split
            · exact ⟨h1, h2⟩
            · rename_i patient hpat
              split
              · rename_i u hu
                split
                · constructor
                  · intro o ho
                    exact obs_map_ok db.observations _
                      (fun _ => { u with fhir_id := fid })
                      (fun x => ∃ q ∈ db.patients, q.id = x)
                      (fun a ha => ⟨patient, findPatientByFhirId_mem hpat,
                        (fhir_to_observation_ids hu).1.symm⟩)
                      (fun a ha => h1 a ha) o ho
                  · exact fun r hr => h2 r hr
                · exact ⟨h1, h2⟩
              · exact ⟨h1, h2⟩
  | fhir_delete_observation fid =>
      unfold FhirAPI.delete_observation
      split
      · exact ⟨h1, h2⟩
      · exact ⟨fun o ho => h1 o (List.mem_of_mem_filter ho),
          fun r hr => h2 r hr⟩
  | fhir_create_report resource uuid =>
      unfold FhirAPI.create_report
      split
      · exact ⟨h1, h2⟩
      · split
        · exact ⟨h1, h2⟩
        · split
          · exact ⟨h1, h2⟩
          · rename_i patient hpat
            split
            · rename_i rep hrep
              constructor
              · exact fun o ho => h1 o ho
              · intro r hr
                rcases List.mem_append.mp hr with h | h
                · exact h2 r h
                · obtain rfl := List.mem_singleton.mp h
                  exact ⟨patient, findPatientByFhirId_mem hpat,
                    (fhir_to_report_pid hrep).symm⟩
            · exact ⟨h1, h2⟩
  | fhir_update_report fid resource uuid =>
      unfold FhirAPI.update_report
      split
      · exact ⟨h1, h2⟩
      · rename_i rrow hrrow
        split
        · exact ⟨h1, h2⟩
        · split
          · exact ⟨h1, h2⟩
          · split
            · exact ⟨h1, h2⟩
            · split
              · rename_i u hu
                constructor
                · exact fun o ho => h1 o ho
                · intro r hr
                  exact rep_map_ok db.reports _
                    (fun _ => { u with
                      fhir_id := fid, patient_id := rrow.m.patient_id })
                    (fun x => ∃ q ∈ db.patients, q.id = x)
                    (fun a ha => h2 rrow (findReportByFhirId_mem hrrow))
                    (fun a ha => h2 a ha) r hr
              · exact ⟨h1, h2⟩
  | fhir_delete_report fid =>
      unfold FhirAPI.delete_report
      split
      · exact ⟨h1, h2⟩
      · exact ⟨fun o ho => h1 o (List.mem_of_mem_filter ho),
          fun r hr => h2 r (List.mem_of_mem_filter hr)⟩

/-- The two patient-reference links hold in every reachable state. -/
theorem reachable_patient_links {db : DB} (h : Reachable db) :
    obsPatientsOK db ∧ reportsPatientsOK db := by
  induction h with
  | init bms =>
      exact ⟨fun o ho => absurd ho (List.not_mem_nil o),
        fun r hr => absurd hr (List.not_mem_nil r)⟩
  | step hr hs ih => exact step_preserves_patient_links hs ih.1 ih.2

/-- A FHIR Observation resource carrying a subject reference, an effective
datetime and a numeric `valueQuantity` (so the converted row satisfies the
`NOT NULL` constraint on `observations.value` and the insert commits);
every other inbound field is defaulted. -/
def refBreakObs : JSON :=
  JSON.obj [("subject", JSON.obj [("reference", JSON.str "Patient/u1")]),
    ("effectiveDateTime", JSON.str "2024-01-02T03:04:05"),
    ("valueQuantity", JSON.obj [("value", JSON.num 5),
      ("unit", JSON.str "mg/dL")])]

/-- The state after `POST /api/v1/patients` on an empty database followed
by `POST /fhir/Observation` for that patient. -/
def dbBad : DB :=
  (FhirAPI.create_observation
    (RestAPI.create_patient (DB.init []) { name := "Alice" } "u1").db
    refBreakObs "u2").db

/-- C5 counterexample: two requests from the empty database reach a state
with one observation whose `report_id` is the placeholder 1 while the
report table is empty, so the observation-to-report link of the claimed
invariant is broken.  The observation carries a numeric value, so the
insert passes the `NOT NULL` constraint and commits; the dangling
`report_id` itself is not caught because SQLite leaves foreign keys
unenforced without a pragma the app never issues. -/
theorem C5_counterexample :
    Reachable dbBad ∧ dbBad.reports = [] ∧
    dbBad.observations.map (fun o => o.m.report_id) = [1] ∧
    ¬ specRefIntegrity dbBad := by
  refine ⟨?_, by decide, by decide, ?_⟩
  · exact Reachable.step
      (Reachable.step (Reachable.init [])
        (Step.rest_create_patient (DB.init []) { name := "Alice" } "u1"))
      (Step.fhir_create_observation
        (RestAPI.create_patient (DB.init []) { name := "Alice" } "u1").db
        refBreakObs "u2")
  · unfold specRefIntegrity
    decide

/-- No row of `db` references patient `pid`, and the patient row itself is
gone. -/
def patientPurged (db : DB) (pid : Nat) : Prop :=
  (∀ d ∈ db.documents, ¬ d.m.patient_id = pid) ∧
  (∀ o ∈ db.observations, ¬ o.m.patient_id = pid) ∧
  (∀ r ∈ db.reports, ¬ r.m.patient_id = pid) ∧
  (∀ p ∈ db.patients, ¬ p.id = pid)

/-- No observation row of `db` references report `rid`, and the report row
itself is gone. -/
def reportPurged (db : DB) (rid : Nat) : Prop :=
  (∀ o ∈ db.observations, ¬ o.m.report_id = rid) ∧
  (∀ r ∈ db.reports, ¬ r.id = rid)

/-- C5 (amended).  The cascade deletes hold as claimed: a successful
patient delete (REST or FHIR) leaves no document, observation or report
referencing the patient, and a successful FHIR report delete leaves no
observation referencing the report.  Of the claimed reachable-state
invariant, the two patient links hold: every observation and every report
references an existing patient (the observation-to-report link is refuted
by `dbBad`). -/
theorem C5_cascade_and_integrity :
    (∀ (db : DB) (pid : Nat),
      (RestAPI.delete_patient db pid).status = 200 →
      patientPurged (RestAPI.delete_patient db pid).db pid) ∧
    (∀ (db : DB) (fid : String) (row : PatientRow),
      db.findPatientByFhirId fid = some row →
      (FhirAPI.delete_patient db fid).status = 204 ∧
      patientPurged (FhirAPI.delete_patient db fid).db row.id) ∧
    (∀ (db : DB) (fid : String) (row : ReportRow),
      db.findReportByFhirId fid = some row →
      (FhirAPI.delete_report db fid).status = 204 ∧
      reportPurged (FhirAPI.delete_report db fid).db row.id) ∧
    (∀ db : DB, Reachable db → obsPatientsOK db ∧ reportsPatientsOK db) := by
  refine ⟨fun db pid h => ?_, fun db fid row h => ?_, fun db fid row h => ?_,
    fun db h => reachable_patient_links h⟩
  · cases hf : db.findPatient pid with
    | none =>
        simp only [RestAPI.delete_patient, hf] at h
        exact absurd h (by decide)
    | some row =>
        simp only [RestAPI.delete_patient,
          RestAPI.delete_patient_related_records, hf]
        refine ⟨fun d hd => ?_, fun o ho => ?_, fun r hr => ?_, fun p hp => ?_⟩
        · simpa using (List.mem_filter.mp hd).2
        · simpa using (List.mem_filter.mp ho).2
        · simpa using (List.mem_filter.mp hr).2
        · simpa using (List.mem_filter.mp hp).2
  · simp only [FhirAPI.delete_patient, h]
    refine ⟨by trivial, fun d hd => ?_, fun o ho => ?_, fun r hr => ?_, fun p hp => ?_⟩
    · simpa using (List.mem_filter.mp hd).2
    · simpa using (List.mem_filter.mp ho).2
    · simpa using (List.mem_filter.mp hr).2
    · simpa using (List.mem_filter.mp hp).2
  · simp only [FhirAPI.delete_report, h]
    refine ⟨by trivial, fun o ho => ?_, fun r hr => ?_⟩
    · simpa using (List.mem_filter.mp ho).2
    · simpa using (List.mem_filter.mp hr).2

/-- The stored patient model of the one-of-each database `dbLinked`. -/
def dbLinkedPatient : Patient := { name := "A", fhir_id := "pa" }

/-- The stored report model of the one-of-each database `dbLinked`. -/
def dbLinkedReport : TestReport :=
  { patient_id := 1, effective_datetime := ⟨2024, 1, 2, 3, 4, 5⟩, fhir_id := "ra" }

/-- A database with one patient, one report on it, one observation on both
and one document on the patient. -/
def dbLinked : DB :=
  { patients := [⟨1, dbLinkedPatient⟩],
    reports := [⟨1, dbLinkedReport⟩],
    observations := [⟨1,
      { patient_id := 1, report_id := 1, biomarker_id := 1,
        effective_datetime := ⟨2024, 1, 2, 3, 4, 5⟩, value := some 5,
        fhir_id := "oa" }⟩],
    documents := [⟨1,
      { patient_id := 1, report_id := some 1, filename := "f",
        filepath := "u/f", file_type := "pdf", file_size := 3,
        fhir_id := "da" }⟩],
    biomarkers := [1], next_patient_id := 2, next_report_id := 2,
    next_observation_id := 2, next_document_id := 2 }

/-- Witness for the amended C5: on `dbLinked` the three deletes succeed
and purge every reference, and a freshly initialised database is reachable
and satisfies the two patient links. -/
theorem C5_cascade_and_integrity_witness :
    ((RestAPI.delete_patient dbLinked 1).status = 200 ∧
      patientPurged (RestAPI.delete_patient dbLinked 1).db 1) ∧
    (dbLinked.findPatientByFhirId "pa" = some ⟨1, dbLinkedPatient⟩ ∧
      patientPurged (FhirAPI.delete_patient dbLinked "pa").db 1) ∧
    (dbLinked.findReportByFhirId "ra" = some ⟨1, dbLinkedReport⟩ ∧
      reportPurged (FhirAPI.delete_report dbLinked "ra").db 1) ∧
    (Reachable (DB.init [7]) ∧
      obsPatientsOK (DB.init [7]) ∧ reportsPatientsOK (DB.init [7])) := by
  refine ⟨⟨by decide, C5_cascade_and_integrity.1 dbLinked 1 (by decide)⟩,
    ⟨by decide,
      (C5_cascade_and_integrity.2.1 dbLinked "pa" ⟨1, dbLinkedPatient⟩ (by decide)).2⟩,
    ⟨by decide,
      (C5_cascade_and_integrity.2.2.1 dbLinked "ra" ⟨1, dbLinkedReport⟩ (by decide)).2⟩,
    Reachable.init [7],
    C5_cascade_and_integrity.2.2.2 (DB.init [7]) (Reachable.init [7])⟩
